import Mathlib

/-!
Verification model of the hubuum-frontend BFF session/proxy subsystem.

This file gives a shallow embedding of the session store
(`src/lib/auth/session-store.ts`), the session boundary
(`src/lib/auth/session.ts`), the correlation-id module
(`src/lib/correlation.ts`), the request middleware (`src/proxy.ts`),
the catch-all proxy route and the login route
(`src/app/api/auth/...`), and proves the behavioural claims about them.

Conventions of the embedding:
- JavaScript strings are Lean `String`s; all computation is done on
  `List Char` so that terms reduce in the kernel.
- `Date.now()` is an explicit `now : Nat` argument (milliseconds).
- Randomness (`crypto.randomUUID()`) is an explicit argument.
- Promise rejection / thrown errors are `Except String`.
- The Valkey (Redis-compatible) client is a parameter: a state type `σ`
  together with `ValkeyClientOps σ` describing the outcome of each
  client call; a concrete key-value instantiation `kvOps` models a
  healthy server.
-/

/-! ## String substrate

Executable models of the JavaScript string primitives used by the
source.  They operate on `List Char` so that `decide`/`rfl` can
evaluate them. -/

/-- `c.toLowerCase()` for a single character (ASCII, as used by the source). -/
def lowerChar (c : Char) : Char :=
  if 'A' ≤ c && c ≤ 'Z' then Char.ofNat (c.toNat + 32) else c

/-- JS `s.toLowerCase()` (ASCII range; the source only lowercases header
umes and protocol strings). -/
def strLower (s : String) : String := String.mk (s.toList.map lowerChar)

/-- `c.toUpperCase()` for a single character (ASCII). -/
def upperChar (c : Char) : Char :=
  if 'a' ≤ c && c ≤ 'z' then Char.ofNat (c.toNat - 32) else c

/-- JS `s.toUpperCase()` (ASCII range; the source only uppercases HTTP methods). -/
def strUpper (s : String) : String := String.mk (s.toList.map upperChar)

/-- JS `s.trim()`: strip leading and trailing whitespace. -/
def strTrim (s : String) : String :=
  String.mk ((s.toList.dropWhile Char.isWhitespace).reverse.dropWhile Char.isWhitespace |>.reverse)

/-- First segment of JS `s.split(",")`: characters before the first comma
(`split` always yields at least one element, so `[0]` is total). -/
def firstCommaSegment (s : String) : String :=
  String.mk (s.toList.takeWhile (fun c => c ≠ ','))

/-- Substring containment test, modelling JS `String.prototype.includes`. -/
def charsContain (hay sub : List Char) : Bool :=
  match hay with
  | [] => sub.isEmpty
  | _ :: rest => sub.isPrefixOf hay || charsContain rest sub

/-- JS `s.includes(sub)`. -/
def strContainsSub (s sub : String) : Bool := charsContain s.toList sub.toList

/-- JS `s.startsWith(p)`. -/
def strStarts (s p : String) : Bool := p.toList.isPrefixOf s.toList

/-- JS `s.endsWith(p)`. -/
def strEnds (s p : String) : Bool := p.toList.reverse.isPrefixOf s.toList.reverse

/-- JS `arr.join("/")`. -/
def joinSlash : List String → String
  | [] => ""
  | [x] => x
  | x :: xs => x ++ "/" ++ joinSlash xs

/-- Evaluate a list of decimal digit characters to a `Nat`. -/
def digitsToNat : List Char → Nat → Nat
  | [], acc => acc
  | c :: cs, acc => digitsToNat cs (acc * 10 + (c.toNat - 48))

/-- Parse a nonempty all-digit string (used for JSON number literals that
denote the stored millisecond timestamps). -/
def decimalNat (s : String) : Option Nat :=
  let cs := s.toList
  if cs.isEmpty || !(cs.all Char.isDigit) then none
  else some (digitsToNat cs 0)

/-! ## Association-list maps

JavaScript `Map` / key-value state, with `set` replacing an existing
key in place and `delete` removing it. -/

/-- `Map.set` semantics: replace the first binding of `k` in place, else append. -/
def mapSet {α : Type} (m : List (String × α)) (k : String) (v : α) : List (String × α) :=
  match m with
  | [] => [(k, v)]
  | (k1, v1) :: rest => if k1 = k then (k, v) :: rest else (k1, v1) :: mapSet rest k v

/-- `Map.get` semantics: first binding wins. -/
def mapGet {α : Type} (m : List (String × α)) (k : String) : Option α :=
  match m with
  | [] => none
  | (k1, v1) :: rest => if k1 = k then some v1 else mapGet rest k

/-- `Map.delete` semantics: remove every binding of `k` (bindings are
unique in every map the model builds, so this agrees with removing one). -/
def mapDrop {α : Type} (m : List (String × α)) (k : String) : List (String × α) :=
  m.filter (fun p => p.1 ≠ k)

/-! ## HTTP header and cookie primitives -/

/-- JS `Headers.get(name)`: case-insensitive lookup. -/
def headerGet (hs : List (String × String)) (name : String) : Option String :=
  (hs.find? (fun p => strLower p.1 = strLower name)).map (fun p => p.2)

/-- JS `Headers.set(name, value)`: stores under the lowercased name,
replacing any previous value. -/
def headerSet (hs : List (String × String)) (name value : String) : List (String × String) :=
  mapSet hs (strLower name) value

/-- `request.cookies.get(name)?.value`: exact-name lookup. -/
def cookieGet (cs : List (String × String)) (name : String) : Option String :=
  mapGet cs name

/-- JS truthiness for an optional string (`undefined`, `null` and `""` are falsy). -/
def truthy : Option String → Bool
  | none => false
  | some s => s ≠ ""

/-- A truthy optional string, or `none`: models the common
`request.cookies.get(n)?.value` + `if (!v)` pattern. -/
def truthyCookie (cs : List (String × String)) (name : String) : Option String :=
  match cookieGet cs name with
  | none => none
  | some v => if v = "" then none else some v

/-! ## Correlation identifiers (`src/lib/correlation.ts`) -/

def CORRELATION_ID_HEADER : String := "x-correlation-id"
def CORRELATION_ID_COOKIE : String := "hubuum.cid"

/-- One character of the regex class `[A-Za-z0-9._:-]`. -/
def corrIdChar (c : Char) : Bool :=
  c.isAlpha || c.isDigit || c = '.' || c = '_' || c = ':' || c = '-'

/-- The regex `^[A-Za-z0-9._:-]{8,128}$` as a decidable test. -/
def corrIdPattern (s : String) : Bool :=
  let cs := s.toList
  decide (8 ≤ cs.length) && decide (cs.length ≤ 128) && cs.all corrIdChar

/-- `normalizeCorrelationId` from `src/lib/correlation.ts`: falsy values
are rejected, then the value is trimmed and tested against the pattern. -/
def normalizeCorrelationId (value : Option String) : Option String :=
  match value with
  | none => none
  | some v =>
    if v = "" then none
    else
      let trimmed := strTrim v
      if trimmed = "" then none
      else if !corrIdPattern trimmed then none
      else some trimmed

/-! ## JSON (`JSON.parse` / `JSON.stringify`)

A small executable JSON value type with a fuel-based recursive-descent
reader, used to model `JSON.parse` (number literals are kept as their
lexemes, since the source only ever serializes integer timestamps). -/

inductive Json where
  | jnull
  | jbool (b : Bool)
  | jnum (lit : String)
  | jstr (s : String)
  | jarr (elems : List Json)
  | jobj (fields : List (String × Json))
deriving Inhabited, Repr

/-- Skip JSON whitespace. -/
def skipWs : List Char → List Char
  | c :: cs => if c = ' ' || c = '\t' || c = '\n' || c = '\r' then skipWs cs else c :: cs
  | [] => []

/-- Read the body of a JSON string literal after the opening quote;
returns the decoded characters and the remainder after the closing
quote.  Escapes are decoded as in ECMA-404 (`\uXXXX` becomes the code
point, surrogates are not paired — the stored payloads are ASCII). -/
def readStringBody : List Char → List Char → Option (List Char × List Char)
  | acc, '"' :: rest => some (acc.reverse, rest)
  | acc, '\\' :: e :: rest =>
    match e with
    | '"' => readStringBody ('"' :: acc) rest
    | '\\' => readStringBody ('\\' :: acc) rest
    | '/' => readStringBody ('/' :: acc) rest
    | 'b' => readStringBody (Char.ofNat 8 :: acc) rest
    | 'f' => readStringBody (Char.ofNat 12 :: acc) rest
    | 'n' => readStringBody ('\n' :: acc) rest
    | 'r' => readStringBody ('\r' :: acc) rest
    | 't' => readStringBody ('\t' :: acc) rest
    | 'u' =>
      match rest with
      | h1 :: h2 :: h3 :: h4 :: rest2 =>
        let hv := fun (c : Char) =>
          if '0' ≤ c && c ≤ '9' then some (c.toNat - 48)
          else if 'a' ≤ c && c ≤ 'f' then some (c.toNat - 87)
          else if 'A' ≤ c && c ≤ 'F' then some (c.toNat - 55)
          else none
        match hv h1, hv h2, hv h3, hv h4 with
        | some a, some b, some c, some d =>
          readStringBody (Char.ofNat (((a * 16 + b) * 16 + c) * 16 + d) :: acc) rest2
        | _, _, _, _ => none
      | _ => none
    | _ => none
  | acc, c :: rest => readStringBody (c :: acc) rest
  | _, [] => none

/-- Digits helper for the number grammar. -/
def spanDigits (cs : List Char) : List Char × List Char :=
  (cs.takeWhile Char.isDigit, cs.dropWhile Char.isDigit)

/-- Read a JSON number lexeme (`-?int frac? exp?`); returns the lexeme
characters and the remainder. -/
def readNumberLex (cs : List Char) : Option (List Char × List Char) :=
  let (neg, cs1) := match cs with
    | '-' :: rest => (['-'], rest)
    | _ => (([] : List Char), cs)
  match cs1 with
  | [] => none
  | c :: _ =>
    if !c.isDigit then none
    else
      let (intPart, cs2) :=
        if c = '0' then ([c], cs1.tail)
        else spanDigits cs1
      let (fracPart, cs3) :=
        match cs2 with
        | '.' :: rest =>
          let (ds, rest2) := spanDigits rest
          if ds.isEmpty then ([], cs2) else ('.' :: ds, rest2)
        | _ => ([], cs2)
      if fracPart.isEmpty && (match cs2 with | '.' :: _ => true | _ => false) then none
      else
        let (expPart, cs4) :=
          match cs3 with
          | e :: rest =>
            if e = 'e' || e = 'E' then
              let (sgn, rest2) := match rest with
                | s :: r2 => if s = '+' || s = '-' then ([s], r2) else ([], rest)
                | [] => ([], rest)
              let (ds, rest3) := spanDigits rest2
              if ds.isEmpty then ([], cs3) else (e :: (sgn ++ ds), rest3)
            else ([], cs3)
          | [] => ([], cs3)
        let hadBadExp :=
          match cs3 with
          | e :: _ => (e = 'e' || e = 'E') && expPart.isEmpty
          | [] => false
        if hadBadExp then none
        else some (neg ++ intPart ++ fracPart ++ expPart, cs4)

mutual

/-- Fuel-based JSON value reader (`JSON.parse` core).  Fuel bounds the
recursion depth; `jsonParse` supplies more fuel than any input can use. -/
def readValue : Nat → List Char → Option (Json × List Char)
  | 0, _ => none
  | Nat.succ fuel, cs =>
    match skipWs cs with
    | 'n' :: 'u' :: 'l' :: 'l' :: rest => some (Json.jnull, rest)
    | 't' :: 'r' :: 'u' :: 'e' :: rest => some (Json.jbool true, rest)
    | 'f' :: 'a' :: 'l' :: 's' :: 'e' :: rest => some (Json.jbool false, rest)
    | '"' :: rest =>
      match readStringBody [] rest with
      | some (content, rest2) => some (Json.jstr (String.mk content), rest2)
      | none => none
    | '[' :: rest =>
      (match skipWs rest with
      | ']' :: rest2 => some (Json.jarr [], rest2)
      | _ =>
        match readArrayItems fuel (skipWs rest) with
        | some (elems, rest2) => some (Json.jarr elems, rest2)
        | none => none)
    | '{' :: rest =>
      (match skipWs rest with
      | '}' :: rest2 => some (Json.jobj [], rest2)
      | _ =>
        match readObjectItems fuel (skipWs rest) with
        | some (fields, rest2) => some (Json.jobj fields, rest2)
        | none => none)
    | other =>
      match readNumberLex other with
      | some (lex, rest) => some (Json.jnum (String.mk lex), rest)
      | none => none

/-- Comma-separated array elements up to the closing bracket. -/
def readArrayItems : Nat → List Char → Option (List Json × List Char)
  | 0, _ => none
  | Nat.succ fuel, cs =>
    match readValue fuel cs with
    | none => none
    | some (v, rest) =>
      match skipWs rest with
      | ',' :: rest2 =>
        (match readArrayItems fuel rest2 with
        | some (vs, rest3) => some (v :: vs, rest3)
        | none => none)
      | ']' :: rest2 => some ([v], rest2)
      | _ => none

/-- Comma-separated `"key": value` members up to the closing brace. -/
def readObjectItems : Nat → List Char → Option (List (String × Json) × List Char)
  | 0, _ => none
  | Nat.succ fuel, cs =>
    match skipWs cs with
    | '"' :: rest =>
      (match readStringBody [] rest with
      | none => none
      | some (key, rest2) =>
        match skipWs rest2 with
        | ':' :: rest3 =>
          (match readValue fuel rest3 with
          | none => none
          | some (v, rest4) =>
            match skipWs rest4 with
            | ',' :: rest5 =>
              (match readObjectItems fuel rest5 with
              | some (fs, rest6) => some ((String.mk key, v) :: fs, rest6)
              | none => none)
            | '}' :: rest5 => some ([(String.mk key, v)], rest5)
            | _ => none)
        | _ => none)
    | _ => none

end

/-- `JSON.parse`, returning `none` where the source would throw. -/
def jsonParse (s : String) : Option Json :=
  match readValue (s.toList.length + 1) s.toList with
  | some (v, rest) => if (skipWs rest).isEmpty then some v else none
  | none => none

/-- `JSON.stringify` escaping for one character of a string literal. -/
def jsonEscapeChar (c : Char) : List Char :=
  if c = '"' then ['\\', '"']
  else if c = '\\' then ['\\', '\\']
  else if c = '\n' then ['\\', 'n']
  else if c = '\r' then ['\\', 'r']
  else if c = '\t' then ['\\', 't']
  else if c.toNat = 8 then ['\\', 'b']
  else if c.toNat = 12 then ['\\', 'f']
  else if c.toNat < 32 then
    let hx := fun (n : Nat) => if n < 10 then Char.ofNat (48 + n) else Char.ofNat (87 + n - 10)
    ['\\', 'u', '0', '0', hx (c.toNat / 16), hx (c.toNat % 16)]
  else [c]

/-- A JSON string literal with quotes, as `JSON.stringify` renders it. -/
def jsonStrLit (s : String) : String :=
  "\"" ++ String.mk (s.toList.flatMap jsonEscapeChar) ++ "\""

/-! ## Session payloads (`src/lib/auth/session-store.ts`) -/

/-- `SessionPayload` from `src/lib/auth/session-store.ts`. -/
structure SessionPayload where
  token : String
  username : Option String
  createdAt : Nat
  lastSeen : Nat
deriving DecidableEq, Repr

/-- `JSON.stringify(payload)` for a `SessionPayload` object literal:
fields in insertion order, `username` omitted when `undefined`. -/
def stringifyPayload (p : SessionPayload) : String :=
  "\x7b\"token\":" ++ jsonStrLit p.token
    ++ (match p.username with
        | some u => ",\"username\":" ++ jsonStrLit u
        | none => "")
    ++ ",\"createdAt\":" ++ toString p.createdAt
    ++ ",\"lastSeen\":" ++ toString p.lastSeen ++ "\x7d"

/-- The `JSON.parse(raw) as SessionPayload` step of `ValkeySessionStore.get`.
The source performs no runtime shape validation (a TypeScript cast); the
model decodes the four payload fields and agrees with the source on every
value the store itself writes (`stringifyPayload` output).  Valid JSON
that is not payload-shaped is outside the behaviour any claim exercises. -/
def payloadOfJson : Json → Option SessionPayload
  | Json.jobj fields =>
    (match mapGet fields "token", mapGet fields "createdAt", mapGet fields "lastSeen" with
    | some (Json.jstr tok), some (Json.jnum ca), some (Json.jnum ls) =>
      (match decimalNat ca, decimalNat ls with
      | some caN, some lsN =>
        let username := match mapGet fields "username" with
          | some (Json.jstr u) => some u
          | _ => none
        some { token := tok, username := username, createdAt := caN, lastSeen := lsN }
      | _, _ => none)
    | _, _, _ => none)
  | _ => none

/-! ## Base64url cookie encoding (`src/lib/auth/session.ts`)

`encodeCookieValue` is `Buffer.from(value, "utf8").toString("base64url")`
(unpadded); `decodeCookieValue` is the reverse.  UTF-8 encoding of a
code point is modelled directly. -/

/-- UTF-8 bytes of one code point. -/
def utf8Bytes (c : Char) : List Nat :=
  let n := c.toNat
  if n < 0x80 then [n]
  else if n < 0x800 then [0xC0 + n / 64, 0x80 + n % 64]
  else if n < 0x10000 then [0xE0 + n / 4096, 0x80 + (n / 64) % 64, 0x80 + n % 64]
  else [0xF0 + n / 262144, 0x80 + (n / 4096) % 64, 0x80 + (n / 64) % 64, 0x80 + n % 64]

/-- UTF-8 bytes of a string. -/
def strUtf8 (s : String) : List Nat := s.toList.flatMap utf8Bytes

/-- Decode a UTF-8 byte sequence back to characters (`none` on malformed
input; the source only decodes byte sequences it produced itself). -/
def utf8Decode : List Nat → Option (List Char)
  | [] => some []
  | b :: rest =>
    if b < 0x80 then (utf8Decode rest).map (fun cs => Char.ofNat b :: cs)
    else if b < 0xC0 then none
    else if b < 0xE0 then
      match rest with
      | b2 :: rest2 =>
        if 0x80 ≤ b2 && b2 < 0xC0 then
          (utf8Decode rest2).map (fun cs => Char.ofNat ((b - 0xC0) * 64 + (b2 - 0x80)) :: cs)
        else none
      | _ => none
    else if b < 0xF0 then
      match rest with
      | b2 :: b3 :: rest2 =>
        if 0x80 ≤ b2 && b2 < 0xC0 && 0x80 ≤ b3 && b3 < 0xC0 then
          (utf8Decode rest2).map
            (fun cs => Char.ofNat (((b - 0xE0) * 64 + (b2 - 0x80)) * 64 + (b3 - 0x80)) :: cs)
        else none
      | _ => none
    else
      match rest with
      | b2 :: b3 :: b4 :: rest2 =>
        if 0x80 ≤ b2 && b2 < 0xC0 && 0x80 ≤ b3 && b3 < 0xC0 && 0x80 ≤ b4 && b4 < 0xC0 then
          (utf8Decode rest2).map
            (fun cs =>
              Char.ofNat ((((b - 0xF0) * 64 + (b2 - 0x80)) * 64 + (b3 - 0x80)) * 64 + (b4 - 0x80)) :: cs)
        else none
      | _ => none

/-- The base64url alphabet. -/
def b64Char (n : Nat) : Char :=
  if n < 26 then Char.ofNat (65 + n)
  else if n < 52 then Char.ofNat (97 + (n - 26))
  else if n < 62 then Char.ofNat (48 + (n - 52))
  else if n = 62 then '-'
  else '_'

/-- Inverse of the base64url alphabet. -/
def b64Val (c : Char) : Option Nat :=
  if 'A' ≤ c && c ≤ 'Z' then some (c.toNat - 65)
  else if 'a' ≤ c && c ≤ 'z' then some (c.toNat - 97 + 26)
  else if '0' ≤ c && c ≤ '9' then some (c.toNat - 48 + 52)
  else if c = '-' then some 62
  else if c = '_' then some 63
  else none

/-- Unpadded base64url rendering of a byte list. -/
def b64Encode : List Nat → List Char
  | b1 :: b2 :: b3 :: rest =>
    let w := (b1 % 256) * 65536 + (b2 % 256) * 256 + b3 % 256
    b64Char (w / 262144) :: b64Char ((w / 4096) % 64) :: b64Char ((w / 64) % 64)
      :: b64Char (w % 64) :: b64Encode rest
  | [b1, b2] =>
    let w := (b1 % 256) * 1024 + (b2 % 256) * 4
    [b64Char (w / 4096), b64Char ((w / 64) % 64), b64Char (w % 64)]
  | [b1] =>
    let w := (b1 % 256) * 16
    [b64Char (w / 64), b64Char (w % 64)]
  | [] => []

/-- Base64url reading of a (padding-stripped) character list into bytes. -/
def b64Decode : List Char → Option (List Nat)
  | c1 :: c2 :: c3 :: c4 :: rest =>
    (match b64Val c1, b64Val c2, b64Val c3, b64Val c4 with
    | some v1, some v2, some v3, some v4 =>
      let w := ((v1 * 64 + v2) * 64 + v3) * 64 + v4
      (b64Decode rest).map (fun bs => w / 65536 :: (w / 256) % 256 :: w % 256 :: bs)
    | _, _, _, _ => none)
  | [c1, c2, c3] =>
    (match b64Val c1, b64Val c2, b64Val c3 with
    | some v1, some v2, some v3 =>
      let w := (v1 * 64 + v2) * 64 + v3
      some [w / 1024, (w / 4) % 256]
    | _, _, _ => none)
  | [c1, c2] =>
    (match b64Val c1, b64Val c2 with
    | some v1, some v2 => some [(v1 * 64 + v2) / 16]
    | _, _ => none)
  | [_] => none
  | [] => some []

/-- `encodeCookieValue` from `src/lib/auth/session.ts`:
`Buffer.from(value, "utf8").toString("base64url")`. -/
def encodeCookieValue (value : String) : String :=
  String.mk (b64Encode (strUtf8 value))

/-- `decodeCookieValue` from `src/lib/auth/session.ts`:
`Buffer.from(value, "base64url").toString("utf8")`, `null` on failure.
(The model rejects characters outside the alphabet; Node's decoder skips
them, but no claim depends on malformed-input decoding, and the
round-trip behaviour on values the source itself encodes agrees.) -/
def decodeCookieValue (value : String) : Option String :=
  match b64Decode (value.toList.filter (fun c => c ≠ '=')) with
  | none => none
  | some bytes =>
    match utf8Decode bytes with
    | none => none
    | some cs => some (String.mk cs)

/-! ## Server environment (`src/lib/env.ts`)

The parsed environment record (`getServerEnv`), after zod validation:
`VALKEY_URL` is `undefined` or a nonempty URL, `SESSION_TTL_SECONDS`
a positive integer, `SESSION_PREFIX` a nonempty string (field named
`sessionKeyPre` here). -/

structure ServerEnv where
  NODE_ENV : String
  VALKEY_URL : Option String
  SESSION_TTL_SECONDS : Nat
  /-- The `SESSION_PREFIX` environment value. -/
  sessionKeyPre : String
deriving DecidableEq, Repr

/-! ## Session store (`src/lib/auth/session-store.ts`) -/

/-- One entry of the `InMemorySessionStore` map: the payload plus its
absolute expiry time. -/
structure MemEntry where
  payload : SessionPayload
  expiresAt : Nat
deriving DecidableEq, Repr

/-- `InMemorySessionStore`: TTL plus the private `Map`. -/
structure InMemorySessionStore where
  ttlSeconds : Nat
  map : List (String × MemEntry)
deriving DecidableEq, Repr

/-- `InMemorySessionStore.create`. -/
def memCreate (s : InMemorySessionStore) (now : Nat) (sid : String) (payload : SessionPayload) :
    InMemorySessionStore :=
  { s with map := mapSet s.map sid { payload := payload, expiresAt := now + s.ttlSeconds * 1000 } }

/-- `InMemorySessionStore.get`: returns the (possibly lazily evicted)
store and the result.  An entry with `expiresAt < now` is deleted and
reported as absent. -/
def memGet (s : InMemorySessionStore) (now : Nat) (sid : String) :
    InMemorySessionStore × Option SessionPayload :=
  match mapGet s.map sid with
  | none => (s, none)
  | some entry =>
    if entry.expiresAt < now then ({ s with map := mapDrop s.map sid }, none)
    else (s, some entry.payload)

/-- `InMemorySessionStore.touch`: re-stores the payload with a fresh expiry. -/
def memTouch (s : InMemorySessionStore) (now : Nat) (sid : String) (payload : SessionPayload) :
    InMemorySessionStore :=
  { s with map := mapSet s.map sid { payload := payload, expiresAt := now + s.ttlSeconds * 1000 } }

/-- `InMemorySessionStore.destroy`: unconditional delete. -/
def memDestroy (s : InMemorySessionStore) (sid : String) : InMemorySessionStore :=
  { s with map := mapDrop s.map sid }

/-- Outcomes of the Valkey client calls used by `ValkeySessionStore`
(`client.get` / `client.set(key, value, "EX", ttl)` / `client.del`),
over an abstract client state `σ`.  A promise rejection (server
unreachable, timeout, ...) is `Except.error`. -/
structure ValkeyClientOps (σ : Type) where
  get : σ → String → Except String (Option String)
  set : σ → String → String → Nat → Except String σ
  del : σ → String → Except String σ

/-- `ValkeySessionStore`'s `key(sid)`: prepend the configured key prefix
string. -/
def valkeyKey (env : ServerEnv) (sid : String) : String :=
  env.sessionKeyPre ++ sid

/-- `ValkeySessionStore.create` (the store is constructed with
`env.SESSION_TTL_SECONDS` and `env.SESSION_PREFIX` by `getSessionStore`);
`client` is the `getValkeyClient()` result, `none` when unconfigured. -/
def valkeyCreate {σ : Type} (env : ServerEnv) (ops : ValkeyClientOps σ) (client : Option σ)
    (sid : String) (payload : SessionPayload) : Except String σ :=
  match client with
  | none => Except.error "Valkey is not configured."
  | some st => ops.set st (valkeyKey env sid) (stringifyPayload payload) env.SESSION_TTL_SECONDS

/-- `ValkeySessionStore.get`: absent key and unparsable stored value both
yield `none`; a client failure propagates. -/
def valkeyGet {σ : Type} (env : ServerEnv) (ops : ValkeyClientOps σ) (client : Option σ)
    (sid : String) : Except String (Option SessionPayload) :=
  match client with
  | none => Except.error "Valkey is not configured."
  | some st =>
    match ops.get st (valkeyKey env sid) with
    | Except.error e => Except.error e
    | Except.ok none => Except.ok none
    | Except.ok (some raw) =>
      if raw = "" then Except.ok none
      else
        match jsonParse raw with
        | none => Except.ok none
        | some j => Except.ok (payloadOfJson j)

/-- `ValkeySessionStore.touch`: same write as `create`. -/
def valkeyTouch {σ : Type} (env : ServerEnv) (ops : ValkeyClientOps σ) (client : Option σ)
    (sid : String) (payload : SessionPayload) : Except String σ :=
  match client with
  | none => Except.error "Valkey is not configured."
  | some st => ops.set st (valkeyKey env sid) (stringifyPayload payload) env.SESSION_TTL_SECONDS

/-- `ValkeySessionStore.destroy`: `client.del(key)`. -/
def valkeyDestroy {σ : Type} (env : ServerEnv) (ops : ValkeyClientOps σ) (client : Option σ)
    (sid : String) : Except String σ :=
  match client with
  | none => Except.error "Valkey is not configured."
  | some st => ops.del st (valkeyKey env sid)

/-- State of a healthy Valkey server: key to (value, remaining TTL). -/
structure KvEntry where
  value : String
  ttl : Nat
deriving DecidableEq, Repr

/-- Concrete client instantiation: a reachable Valkey server holding a
key-value table.  `SET key value EX ttl` replaces, `DEL` removes, `GET`
of an absent key is `nil` (never an error). -/
def kvOps : ValkeyClientOps (List (String × KvEntry)) where
  get st k := Except.ok ((mapGet st k).map (fun e => e.value))
  set st k v ttl := Except.ok (mapSet st k { value := v, ttl := ttl })
  del st k := Except.ok (mapDrop st k)

/-! ## Requests and responses -/

/-- The parts of a `NextRequest` the subsystem reads. -/
structure RequestModel where
  /-- `request.method`. -/
  method : String
  /-- `request.headers` (the underlying name/value pairs). -/
  headers : List (String × String)
  /-- `request.cookies` as name/value pairs. -/
  cookies : List (String × String)
  /-- `request.nextUrl.protocol`, e.g. `"https:"`. -/
  urlProtocol : String
  /-- `request.nextUrl.pathname`. -/
  pathname : String
  /-- `request.nextUrl.search`, e.g. `"?page=2"` or `""`. -/
  search : String
  /-- `await request.text()`. -/
  bodyText : String
deriving DecidableEq, Repr

/-- Attributes passed to `response.cookies.set`. -/
structure CookieSettings where
  httpOnly : Bool
  secure : Bool
  sameSite : String
  path : String
  maxAge : Nat
deriving DecidableEq, Repr

/-- One `Set-Cookie` produced on a response. -/
structure SetCookie where
  name : String
  value : String
  settings : CookieSettings
deriving DecidableEq, Repr

/-- Response bodies the routes construct: empty (`null`), relayed text,
or a JSON document (`NextResponse.json`). -/
inductive BodyModel where
  | empty
  | text (s : String)
  | json (j : Json)
deriving Inhabited, Repr

/-- The parts of a `NextResponse` the claims observe. -/
structure ResponseModel where
  status : Nat
  headers : List (String × String)
  cookies : List SetCookie
  body : BodyModel
deriving Inhabited, Repr

/-- `response.headers.set`. -/
def respSetHeader (r : ResponseModel) (name value : String) : ResponseModel :=
  { r with headers := headerSet r.headers name value }

/-- `response.cookies.set(name, value, settings)`: replaces any cookie of
the same name already on the response. -/
def respSetCookie (r : ResponseModel) (name value : String) (settings : CookieSettings) :
    ResponseModel :=
  { r with
    cookies :=
      if (r.cookies.find? (fun c => c.name = name)).isSome then
        r.cookies.map (fun c => if c.name = name then { c with value := value, settings := settings } else c)
      else r.cookies ++ [{ name := name, value := value, settings := settings }] }

/-- `NextResponse.json(body, init)` (the `content-type` Next sets is
kept implicit; `extraHeaders` are the explicit `init.headers`). -/
def jsonResponse (status : Nat) (body : Json) (extraHeaders : List (String × String)) :
    ResponseModel :=
  { status := status
    headers := extraHeaders.foldl (fun hs p => headerSet hs p.1 p.2) []
    cookies := []
    body := BodyModel.json body }

/-- The structured `\x7berror, message\x7d` bodies every proxy rejection carries. -/
def errorBody (error message : String) : Json :=
  Json.jobj [("error", Json.jstr error), ("message", Json.jstr message)]

/-! ## Session boundary (`src/lib/auth/session.ts`) -/

def SESSION_COOKIE_NAME : String := "hubuum.sid"
def SESSION_TOKEN_COOKIE_NAME : String := "hubuum.token"
def SESSION_USERNAME_COOKIE_NAME : String := "hubuum.username"

/-- `usesDistributedSessionStore()`: `Boolean(getServerEnv().VALKEY_URL)`
(after `getServerEnv` has already turned `""` into `undefined`). -/
def usesDistributedSessionStore (env : ServerEnv) : Bool :=
  env.VALKEY_URL.isSome

/-- The effective request scheme: first `x-forwarded-proto` entry
(trimmed, lowercased) when truthy, else the request URL's protocol with
its colon removed.  This computation appears verbatim in both
`shouldUseSecureCookies` (`src/lib/auth/session.ts`) and
`requestIsHttps` (`src/proxy.ts`). -/
def effectiveRequestProto (req : RequestModel) : String :=
  let forwardedProto :=
    match headerGet req.headers "x-forwarded-proto" with
    | none => ""
    | some v => strLower (strTrim (firstCommaSegment v))
  let requestProto := strLower (String.mk (req.urlProtocol.toList.filter (fun c => c ≠ ':')))
  if forwardedProto = "" then requestProto else forwardedProto

/-- `shouldUseSecureCookies` from `src/lib/auth/session.ts`. -/
def shouldUseSecureCookies (env : ServerEnv) (request : Option RequestModel) : Bool :=
  if env.NODE_ENV ≠ "production" then false
  else
    match request with
    | none => true
    | some req => effectiveRequestProto req = "https"

/-- `cookieSettings` from `src/lib/auth/session.ts`. -/
def cookieSettings (env : ServerEnv) (request : Option RequestModel) : CookieSettings :=
  { httpOnly := true
    secure := shouldUseSecureCookies env request
    sameSite := "lax"
    path := "/"
    maxAge := env.SESSION_TTL_SECONDS }

/-- The session record handed to callers (`ActiveSession`). -/
structure ActiveSession where
  sid : String
  token : String
  username : Option String
  createdAt : Nat
  lastSeen : Nat
deriving DecidableEq, Repr

/-- `hydrateSession`: look the sid up in the distributed store, touch it
with a fresh `lastSeen`, and return the touched record.  The updated
client state rides along. -/
def hydrateSession {σ : Type} (env : ServerEnv) (ops : ValkeyClientOps σ) (client : Option σ)
    (now : Nat) (sid : String) : Except String (Option ActiveSession × Option σ) :=
  if !usesDistributedSessionStore env then Except.ok (none, client)
  else
    match valkeyGet env ops client sid with
    | Except.error e => Except.error e
    | Except.ok none => Except.ok (none, client)
    | Except.ok (some payload) =>
      let touched : SessionPayload := { payload with lastSeen := now }
      match valkeyTouch env ops client sid touched with
      | Except.error e => Except.error e
      | Except.ok st2 =>
        Except.ok
          (some { sid := sid, token := touched.token, username := touched.username,
                  createdAt := touched.createdAt, lastSeen := touched.lastSeen },
           some st2)

/-- `createSession`: standalone mode returns a placeholder id without
touching any store; distributed mode stores a fresh record under a
generated id (`genSid` models `crypto.randomUUID()`). -/
def createSession {σ : Type} (env : ServerEnv) (ops : ValkeyClientOps σ) (client : Option σ)
    (now : Nat) (token : String) (username : Option String) (genSid : String) :
    Except String (String × Option σ) :=
  if !usesDistributedSessionStore env then Except.ok ("cookie-" ++ genSid, client)
  else
    let payload : SessionPayload :=
      { token := token, username := username, createdAt := now, lastSeen := now }
    match valkeyCreate env ops client genSid payload with
    | Except.error e => Except.error e
    | Except.ok st2 => Except.ok (genSid, some st2)

/-- `getSessionFromRequest`: distributed mode reads the sid cookie and
hydrates; standalone mode decodes the token (and optional username)
cookies and synthesizes a record with zero creation time. -/
def getSessionFromRequest {σ : Type} (env : ServerEnv) (ops : ValkeyClientOps σ)
    (client : Option σ) (now : Nat) (req : RequestModel) :
    Except String (Option ActiveSession × Option σ) :=
  if usesDistributedSessionStore env then
    match truthyCookie req.cookies SESSION_COOKIE_NAME with
    | none => Except.ok (none, client)
    | some sid => hydrateSession env ops client now sid
  else
    match truthyCookie req.cookies SESSION_TOKEN_COOKIE_NAME with
    | none => Except.ok (none, client)
    | some encodedToken =>
      match decodeCookieValue encodedToken with
      | none => Except.ok (none, client)
      | some token =>
        if token = "" then Except.ok (none, client)
        else
          let username :=
            match truthyCookie req.cookies SESSION_USERNAME_COOKIE_NAME with
            | some encodedUsername => decodeCookieValue encodedUsername
            | none => none
          Except.ok
            (some { sid := "cookie-token", token := token, username := username,
                    createdAt := 0, lastSeen := now },
             client)

/-- `destroySession`: a no-op in standalone mode, `store.destroy(sid)` in
distributed mode. -/
def destroySession {σ : Type} (env : ServerEnv) (ops : ValkeyClientOps σ) (client : Option σ)
    (sid : String) : Except String (Option σ) :=
  if !usesDistributedSessionStore env then Except.ok client
  else
    match valkeyDestroy env ops client sid with
    | Except.error e => Except.error e
    | Except.ok st2 => Except.ok (some st2)

/-- `setSessionCookie`: distributed mode writes the sid cookie and clears
the username cookie; standalone mode (when a token is supplied) writes
the encoded token cookie and the encoded username cookie, clearing the
latter when no username is supplied. -/
def setSessionCookie (env : ServerEnv) (response : ResponseModel) (sid : String)
    (request : Option RequestModel) (token : Option String) (username : Option String) :
    ResponseModel :=
  let settings := cookieSettings env request
  if usesDistributedSessionStore env then
    respSetCookie (respSetCookie response SESSION_COOKIE_NAME sid settings)
      SESSION_USERNAME_COOKIE_NAME "" { settings with maxAge := 0 }
  else if truthy token then
    let tok := token.getD ""
    let r1 := respSetCookie response SESSION_TOKEN_COOKIE_NAME (encodeCookieValue tok) settings
    if truthy username then
      respSetCookie r1 SESSION_USERNAME_COOKIE_NAME (encodeCookieValue (username.getD "")) settings
    else
      respSetCookie r1 SESSION_USERNAME_COOKIE_NAME "" { settings with maxAge := 0 }
  else response

/-- `clearSessionCookie`: unconditionally expires all three session
cookies. -/
def clearSessionCookie (env : ServerEnv) (response : ResponseModel)
    (request : Option RequestModel) : ResponseModel :=
  let expired := fun (r : ResponseModel) (name : String) =>
    respSetCookie r name "" { cookieSettings env request with maxAge := 0 }
  expired (expired (expired response SESSION_COOKIE_NAME) SESSION_TOKEN_COOKIE_NAME)
    SESSION_USERNAME_COOKIE_NAME

/-! ## Request middleware (`src/proxy.ts`) -/

/-- `isHtmlNavigationRequest`: GET with an `accept` header mentioning
`text/html`. -/
def isHtmlNavigationRequest (req : RequestModel) : Bool :=
  strUpper req.method = "GET"
    && strContainsSub (strLower ((headerGet req.headers "accept").getD "")) "text/html"

/-- `requestIsHttps` from `src/proxy.ts`. -/
def requestIsHttps (req : RequestModel) : Bool :=
  effectiveRequestProto req = "https"

/-- Result of the middleware: the correlation id it settled on, the
headers forwarded to the handler, and the outgoing response decoration. -/
structure MiddlewareResult where
  correlationId : String
  forwardedHeaders : List (String × String)
  response : ResponseModel
deriving Repr

/-- The `proxy` middleware from `src/proxy.ts` (`genId` models
`generateCorrelationId()`).  A fresh id is generated for HTML
navigations; otherwise a valid header id, then a valid cookie id, is
reused; otherwise a fresh id is generated.  The id is stamped on the
forwarded request headers, the response headers and a ~30-minute
correlation cookie whose `secure` flag follows `requestIsHttps`. -/
def middlewareProxy (req : RequestModel) (genId : String) : MiddlewareResult :=
  let headerCorrelationId := normalizeCorrelationId (headerGet req.headers CORRELATION_ID_HEADER)
  let cookieCorrelationId :=
    normalizeCorrelationId (cookieGet req.cookies CORRELATION_ID_COOKIE)
  let existingCorrelationId :=
    match headerCorrelationId with
    | some h => some h
    | none => cookieCorrelationId
  let correlationId :=
    if isHtmlNavigationRequest req then genId
    else existingCorrelationId.getD genId
  let forwardedHeaders := headerSet req.headers CORRELATION_ID_HEADER correlationId
  let response0 : ResponseModel :=
    { status := 200, headers := [], cookies := [], body := BodyModel.empty }
  let response1 := respSetHeader response0 CORRELATION_ID_HEADER correlationId
  let response2 :=
    respSetCookie response1 CORRELATION_ID_COOKIE correlationId
      { httpOnly := true, secure := requestIsHttps req, sameSite := "lax", path := "/",
        maxAge := 60 * 30 }
  { correlationId := correlationId, forwardedHeaders := forwardedHeaders, response := response2 }

/-! ## Catch-all proxy route (`src/app/api/.../route.ts`, `proxyToBackend`) -/

/-- `ALLOWED_METHODS`. -/
def allowedMethod (m : String) : Bool :=
  m = "GET" || m = "POST" || m = "PATCH" || m = "PUT" || m = "DELETE"

/-- `toUpstreamPath`: join the catch-all segments, optionally restore a
trailing slash, and require the result to sit under `api/`. -/
def toUpstreamPath (pathParts : List String) (preserveTrailingSlash : Bool) : Option String :=
  if pathParts.isEmpty then none
  else
    let joinedBase := joinSlash pathParts
    let joined :=
      if preserveTrailingSlash && !strEnds joinedBase "/" then joinedBase ++ "/" else joinedBase
    if !strStarts joined "api/" then none
    else some ("/" ++ joined)

/-- The route's trailing-slash test on the inbound pathname. -/
def preserveTrailingSlash (req : RequestModel) : Bool :=
  decide (1 < req.pathname.toList.length) && strEnds req.pathname "/"

/-- The correlation id the proxy route uses: the normalized inbound
header, or a freshly generated one. -/
def proxyCid (req : RequestModel) (genCid : String) : String :=
  (normalizeCorrelationId (headerGet req.headers CORRELATION_ID_HEADER)).getD genCid

/-- The upstream request `proxyToBackend` issues. -/
structure UpstreamRequest where
  method : String
  path : String
  search : String
  headers : List (String × String)
  body : Option String
deriving Repr

/-- Behaviour of the upstream service for the single `fetch` the proxy
makes: the connection fails, or a response arrives. -/
inductive UpstreamBehavior where
  | unreachable (msg : String)
  | responds (status : Nat) (contentType : Option String) (body : String)
deriving Repr

/-- What one `proxyToBackend` invocation produced: the outgoing
response, the final client state, and the upstream request if one was
issued. -/
structure ProxyOutcome (σ : Type) where
  response : ResponseModel
  client : Option σ
  upstreamCall : Option UpstreamRequest

/-- The upstream header set built on lines 280–293 of the route: copy
`content-type` and `accept` when truthy, then inject the bearer token
and the correlation id. -/
def buildUpstreamHeaders (req : RequestModel) (token cid : String) : List (String × String) :=
  let h0 : List (String × String) := []
  let h1 :=
    match headerGet req.headers "content-type" with
    | some ct => if ct ≠ "" then headerSet h0 "content-type" ct else h0
    | none => h0
  let h2 :=
    match headerGet req.headers "accept" with
    | some ac => if ac ≠ "" then headerSet h1 "accept" ac else h1
    | none => h1
  headerSet (headerSet h2 "authorization" ("Bearer " ++ token)) CORRELATION_ID_HEADER cid

/-- `proxyToBackend` from the catch-all route.  Gate order: method,
path, session; every rejection carries a structured error body and the
correlation header and issues no upstream request.  On an upstream 401
the local session is destroyed and the session cookies cleared. -/
def proxyToBackend {σ : Type} (env : ServerEnv) (ops : ValkeyClientOps σ) (client : Option σ)
    (now : Nat) (req : RequestModel) (pathParams : List String) (upstream : UpstreamBehavior)
    (genCid : String) : Except String (ProxyOutcome σ) :=
  let method := strUpper req.method
  let cid := proxyCid req genCid
  if !allowedMethod method then
    Except.ok
      { response :=
          jsonResponse 405 (errorBody "MethodNotAllowed" (method ++ " is not supported."))
            [(CORRELATION_ID_HEADER, cid)]
        client := client
        upstreamCall := none }
  else
    match toUpstreamPath pathParams (preserveTrailingSlash req) with
    | none =>
      Except.ok
        { response :=
            jsonResponse 400 (errorBody "BadRequest" "Path must begin with api/.")
              [(CORRELATION_ID_HEADER, cid)]
          client := client
          upstreamCall := none }
    | some path =>
      match getSessionFromRequest env ops client now req with
      | Except.error e => Except.error e
      | Except.ok (none, client1) =>
        Except.ok
          { response :=
              jsonResponse 401 (errorBody "Unauthorized" "Sign in required.")
                [(CORRELATION_ID_HEADER, cid)]
            client := client1
            upstreamCall := none }
      | Except.ok (some session, client1) =>
        let upstreamHeaders := buildUpstreamHeaders req session.token cid
        let bodyAllowed := method ≠ "GET" && method ≠ "HEAD"
        let call : UpstreamRequest :=
          { method := method, path := path, search := req.search, headers := upstreamHeaders
            body := if bodyAllowed then some req.bodyText else none }
        match upstream with
        | UpstreamBehavior.unreachable _ =>
          Except.ok
            { response :=
                jsonResponse 502
                  (errorBody "UpstreamUnavailable" "Failed to reach backend service.")
                  [(CORRELATION_ID_HEADER, cid)]
              client := client1
              upstreamCall := some call }
        | UpstreamBehavior.responds status contentType body =>
          let response0 : ResponseModel :=
            { status := status, headers := [], cookies := [], body := BodyModel.text body }
          let response1 :=
            match contentType with
            | some ct => if ct ≠ "" then respSetHeader response0 "content-type" ct else response0
            | none => response0
          let response2 := respSetHeader response1 CORRELATION_ID_HEADER cid
          if status = 401 then
            match destroySession env ops client1 session.sid with
            | Except.error e => Except.error e
            | Except.ok client2 =>
              Except.ok
                { response := clearSessionCookie env response2 (some req)
                  client := client2
                  upstreamCall := some call }
          else
            Except.ok { response := response2, client := client1, upstreamCall := some call }

/-! ## Login route (`src/app/api/auth/login/route.ts`) -/

/-- Percent-decoding of an `application/x-www-form-urlencoded` token:
`+` is a space, `%HH` a byte, anything else is its own UTF-8 bytes. -/
def formTokenBytes : List Char → List Nat
  | [] => []
  | '+' :: rest => 32 :: formTokenBytes rest
  | '%' :: h1 :: h2 :: rest =>
    let hv := fun (c : Char) =>
      if '0' ≤ c && c ≤ '9' then some (c.toNat - 48)
      else if 'a' ≤ c && c ≤ 'f' then some (c.toNat - 87)
      else if 'A' ≤ c && c ≤ 'F' then some (c.toNat - 55)
      else none
    (match hv h1, hv h2 with
    | some a, some b => (a * 16 + b) :: formTokenBytes rest
    | _, _ => utf8Bytes '%' ++ formTokenBytes (h1 :: h2 :: rest))
  | c :: rest => utf8Bytes c ++ formTokenBytes rest

/-- Decode one urlencoded token to a string (claims only exercise ASCII
content, where this agrees with the WHATWG decoder). -/
def formTokenDecode (cs : List Char) : Option String :=
  (utf8Decode (formTokenBytes cs)).map String.mk

/-- Split a character list on a separator character. -/
def splitOnChar (sep : Char) : List Char → List (List Char)
  | [] => [[]]
  | c :: rest =>
    if c = sep then [] :: splitOnChar sep rest
    else
      match splitOnChar sep rest with
      | seg :: segs => (c :: seg) :: segs
      | [] => [[c]]

/-- `formData.get(field)` over an `application/x-www-form-urlencoded`
body: the first pair whose decoded name matches, `none` (JS `null`)
otherwise.  A pair without `=` has value `""`. -/
def formGet (body field : String) : Option String :=
  let pairs := (splitOnChar '&' body.toList).filterMap (fun pair =>
    if pair.isEmpty then none
    else
      let name := pair.takeWhile (fun c => c ≠ '=')
      let value := (pair.dropWhile (fun c => c ≠ '=')).drop 1
      match formTokenDecode name, formTokenDecode value with
      | some n, some v => some (n, v)
      | _, _ => none)
  (pairs.find? (fun p => p.1 = field)).map (fun p => p.2)

/-- `loginSchema.parse` on a parsed JSON body: an object whose
`username` and `password` are strings of length at least 1
(`z.string().min(1)`); anything else throws, i.e. `none`. -/
def credentialsOfJson : Json → Option (String × String)
  | Json.jobj fields =>
    (match mapGet fields "username", mapGet fields "password" with
    | some (Json.jstr u), some (Json.jstr p) =>
      if u ≠ "" && p ≠ "" then some (u, p) else none
    | _, _ => none)
  | _ => none

/-- `parseCredentials` from the login route: a JSON content type parses
the JSON body, a form content type reads the two form fields (the
multipart branch is modelled for urlencoded bodies, which is all any
claim exercises); a schema failure or unknown content type yields
`(null, fromForm := false)` — the `catch` block discards the form flag. -/
def parseCredentials (req : RequestModel) : Option (String × String) × Bool :=
  let contentType := strLower ((headerGet req.headers "content-type").getD "")
  if strContainsSub contentType "application/json" then
    match jsonParse req.bodyText with
    | some j =>
      (match credentialsOfJson j with
      | some c => (some c, false)
      | none => (none, false))
    | none => (none, false)
  else if strContainsSub contentType "application/x-www-form-urlencoded"
      || strContainsSub contentType "multipart/form-data" then
    match formGet req.bodyText "username", formGet req.bodyText "password" with
    | some u, some p => if u ≠ "" && p ≠ "" then (some (u, p), true) else (none, false)
    | _, _ => (none, false)
  else (none, false)

/-- `seeOther(location)`: a 303 with `Location` and `Cache-Control`
headers and an empty body. -/
def seeOther (location : String) : ResponseModel :=
  { status := 303
    headers := headerSet (headerSet [] "Location" location) "Cache-Control" "no-store"
    cookies := []
    body := BodyModel.empty }

/-- `Response.ok`. -/
def okStatus (status : Nat) : Bool :=
  decide (200 ≤ status) && decide (status < 300)

/-- Behaviour of the upstream login call (`backendFetchRaw`): rejection
propagates out of the handler, otherwise a status and body arrive. -/
inductive LoginUpstream where
  | unreachable (msg : String)
  | responds (status : Nat) (body : String)
deriving Repr

/-- `await upstream.json().catch(() => null)`, with a JSON `null`
document behaving like the parse failure under the later `??` and `?.`
uses. -/
def loginPayload (body : String) : Option Json :=
  match jsonParse body with
  | some Json.jnull => none
  | other => other

/-- `(payload as LoginResponse | null)?.token` followed by the
`if (!token)` falsiness gate.  The source performs no shape validation;
a non-string `token` value is outside the behaviour any claim
exercises. -/
def tokenOfPayload : Option Json → Option String
  | some (Json.jobj fields) =>
    (match mapGet fields "token" with
    | some (Json.jstr t) => if t = "" then none else some t
    | _ => none)
  | _ => none

/-- `POST` from the login route: parse credentials, forward them to the
upstream login endpoint, and answer as a redirect (form flow) or JSON
document (JSON flow), creating the session and setting cookies on
success.  `genSid` models `crypto.randomUUID()` in `createSession`. -/
def loginPOST {σ : Type} (env : ServerEnv) (ops : ValkeyClientOps σ) (client : Option σ)
    (now : Nat) (req : RequestModel) (upstream : LoginUpstream) (genSid : String) :
    Except String (ResponseModel × Option σ) :=
  match parseCredentials req with
  | (none, fromForm) =>
    if fromForm then Except.ok (seeOther "/login?error=invalid_credentials", client)
    else
      Except.ok
        (jsonResponse 400 (errorBody "BadRequest" "Invalid login payload") [], client)
  | (some _credentials, fromForm) =>
    match upstream with
    | LoginUpstream.unreachable msg => Except.error msg
    | LoginUpstream.responds status body =>
      let payload := loginPayload body
      if !okStatus status then
        if fromForm then Except.ok (seeOther "/login?error=invalid_credentials", client)
        else
          Except.ok
            (jsonResponse status
              (payload.getD (errorBody "AuthenticationFailed" "Login failed")) [],
             client)
      else
        match tokenOfPayload payload with
        | none =>
          Except.ok
            (jsonResponse 502 (errorBody "AuthProtocolError" "Backend did not return a token")
              [],
             client)
        | some token =>
          match createSession env ops client now token none genSid with
          | Except.error e => Except.error e
          | Except.ok (sid, client1) =>
            let response :=
              if fromForm then seeOther "/app"
              else jsonResponse 200 (Json.jobj [("authenticated", Json.jbool true)]) []
            Except.ok (setSessionCookie env response sid (some req) (some token) none, client1)

/-! ## Shared fixtures and observation helpers -/

/-- A production deployment with a distributed store configured. -/
def prodEnvDist : ServerEnv :=
  { NODE_ENV := "production", VALKEY_URL := some "redis://valkey:6379",
    SESSION_TTL_SECONDS := 28800, sessionKeyPre := "hubuum:sess:" }

/-- A production deployment without a distributed store (standalone mode). -/
def prodEnvSolo : ServerEnv :=
  { NODE_ENV := "production", VALKEY_URL := none,
    SESSION_TTL_SECONDS := 28800, sessionKeyPre := "hubuum:sess:" }

/-- A development deployment without a distributed store. -/
def devEnvSolo : ServerEnv :=
  { NODE_ENV := "development", VALKEY_URL := none,
    SESSION_TTL_SECONDS := 28800, sessionKeyPre := "hubuum:sess:" }

/-- A response with nothing on it yet. -/
def emptyResp : ResponseModel :=
  { status := 200, headers := [], cookies := [], body := BodyModel.empty }

/-- A client whose every call rejects (Valkey server unreachable). -/
def downOps : ValkeyClientOps Unit :=
  { get := fun _ _ => Except.error "valkey unavailable"
    set := fun _ _ _ _ => Except.error "valkey unavailable"
    del := fun _ _ => Except.error "valkey unavailable" }

/-- Does a response body carry the structured shape with string `error`
and `message` fields? -/
def hasErrorMessageBody : BodyModel → Bool
  | BodyModel.json (Json.jobj fields) =>
    (match mapGet fields "error", mapGet fields "message" with
    | some (Json.jstr _), some (Json.jstr _) => true
    | _, _ => false)
  | _ => false

/-- The `content-type` / `accept` copy test the proxy applies: header
present and nonempty. -/
def truthyHeader (hs : List (String × String)) (name : String) : Option String :=
  match headerGet hs name with
  | none => none
  | some v => if v = "" then none else some v

/-- One authenticated access against the in-memory store, as
`hydrateSession` performs it: `get`, refresh `lastSeen`, `touch`.
`none` when the record is absent or expired. -/
def accessTouch (s : InMemorySessionStore) (sid : String) (now : Nat) :
    Option InMemorySessionStore :=
  match memGet s now sid with
  | (_, none) => none
  | (s1, some payload) => some (memTouch s1 now sid { payload with lastSeen := now })

/-- N successive authenticated accesses at the given times. -/
def touchRun (sid : String) : InMemorySessionStore → List Nat → Option InMemorySessionStore
  | s, [] => some s
  | s, t :: ts =>
    match accessTouch s sid t with
    | none => none
    | some s1 => touchRun sid s1 ts

/-- A one-session in-memory store fixture. -/
def c7Store : InMemorySessionStore :=
  { ttlSeconds := 28800
    map := [("sid-0001",
      { payload := { token := "abc123", username := some "alice", createdAt := 5, lastSeen := 5 },
        expiresAt := 100 })] }

/-- `c7Store` after accesses at t = 10 and t = 20. -/
def c7StoreAfter : InMemorySessionStore :=
  { ttlSeconds := 28800
    map := [("sid-0001",
      { payload := { token := "abc123", username := some "alice", createdAt := 5, lastSeen := 20 },
        expiresAt := 28800020 })] }

/-- A proxy request with an unsupported method. -/
def c3ReqBadMethod : RequestModel :=
  { method := "OPTIONS", headers := [], cookies := [], urlProtocol := "http:",
    pathname := "/api/hubuum/api/v0/classes", search := "", bodyText := "" }

/-- A well-formed proxy request carrying no session cookies. -/
def c3ReqNoSession : RequestModel :=
  { method := "GET", headers := [], cookies := [], urlProtocol := "http:",
    pathname := "/api/hubuum/api/v0/classes", search := "", bodyText := "" }

/-- A standalone-mode proxy request with a valid token cookie and the
correlation header `"aaaaaaaa"`. -/
def c9ReqA : RequestModel :=
  { method := "GET", headers := [("accept", "application/json"), ("x-correlation-id", "aaaaaaaa")],
    cookies := [("hubuum.token", "YWJjMTIz")], urlProtocol := "http:",
    pathname := "/api/hubuum/api/v0/classes", search := "", bodyText := "" }

/-- `c9ReqA` with only the correlation header changed. -/
def c9ReqB : RequestModel :=
  { method := "GET", headers := [("accept", "application/json"), ("x-correlation-id", "bbbbbbbb")],
    cookies := [("hubuum.token", "YWJjMTIz")], urlProtocol := "http:",
    pathname := "/api/hubuum/api/v0/classes", search := "", bodyText := "" }

/-- `c9ReqA` with extra client headers outside
`content-type`/`accept`/`x-correlation-id`, including a client-supplied
`authorization` and a literal `cookie` header. -/
def c9ReqC : RequestModel :=
  { method := "GET"
    headers := [("accept", "application/json"), ("x-correlation-id", "aaaaaaaa"),
                ("user-agent", "curl/8.0"), ("authorization", "Bearer evil-token"),
                ("cookie", "tracking=1")]
    cookies := [("hubuum.token", "YWJjMTIz")], urlProtocol := "http:",
    pathname := "/api/hubuum/api/v0/classes", search := "", bodyText := "" }

/-- The upstream header set of a proxy outcome, when a call was issued. -/
def upstreamHeadersOf {σ : Type} (r : Except String (ProxyOutcome σ)) :
    Option (List (String × String)) :=
  match r with
  | Except.ok out =>
    (match out.upstreamCall with
    | some u => some u.headers
    | none => none)
  | Except.error _ => none

/-- A standalone-mode authenticated `DELETE` request (token cookie). -/
def c1ReqSolo : RequestModel :=
  { method := "DELETE", headers := [], cookies := [("hubuum.token", "YWJjMTIz")],
    urlProtocol := "https:", pathname := "/api/hubuum/api/v0/classes/5", search := "",
    bodyText := "" }

/-- A distributed-mode authenticated `DELETE` request (sid cookie). -/
def c1ReqDist : RequestModel :=
  { method := "DELETE", headers := [], cookies := [("hubuum.sid", "sid-0001")],
    urlProtocol := "https:", pathname := "/api/hubuum/api/v0/classes/5", search := "",
    bodyText := "" }

/-- Distributed-store contents holding the session `c1ReqDist` references. -/
def c1Kv : List (String × KvEntry) :=
  [("hubuum:sess:sid-0001",
    { value := "\x7b\"token\":\"abc123\",\"createdAt\":5,\"lastSeen\":5\x7d", ttl := 28800 })]

/-- A form-encoded login submission missing the password field. -/
def c4ReqFormBad : RequestModel :=
  { method := "POST", headers := [("content-type", "application/x-www-form-urlencoded")],
    cookies := [], urlProtocol := "http:", pathname := "/api/auth/login", search := "",
    bodyText := "username=alice" }

/-- A well-formed form-encoded login submission. -/
def c4ReqForm : RequestModel :=
  { method := "POST", headers := [("content-type", "application/x-www-form-urlencoded")],
    cookies := [], urlProtocol := "http:", pathname := "/api/auth/login", search := "",
    bodyText := "username=alice&password=hunter2" }

/-! # Theorems -/

/-! ## Map lemmas -/

theorem mapGet_mapSet_self {α : Type} (m : List (String × α)) (k : String) (v : α) :
    mapGet (mapSet m k v) k = some v := by
  induction m with
  | nil => simp [mapSet, mapGet]
  | cons hd tl ih =>
    obtain ⟨k1, v1⟩ := hd
    by_cases h : k1 = k <;> simp [mapSet, mapGet, h, ih]

theorem mapGet_mapDrop_self {α : Type} (m : List (String × α)) (k : String) :
    mapGet (mapDrop m k) k = none := by
  induction m with
  | nil => simp [mapDrop, mapGet]
  | cons hd tl ih =>
    obtain ⟨k1, v1⟩ := hd
    by_cases h : k1 = k
    · simpa [mapDrop, mapGet, h] using ih
    · simpa [mapDrop, mapGet, h] using ih

theorem mapDrop_mapDrop_self {α : Type} (m : List (String × α)) (k : String) :
    mapDrop (mapDrop m k) k = mapDrop m k := by
  simp [mapDrop, List.filter_filter]

/-! ## C5 — correlation-id normalization -/

/-- The value normalization actually accepts is the *trimmed* form. -/
theorem corrIdPattern_empty_false : corrIdPattern "" = false := by decide

/-- C5 (counterexample): the claim says a candidate is accepted exactly
when it matches `^[A-Za-z0-9._:-]{8,128}$` and that any value failing
the pattern is treated like a missing value.  The value `" abcd1234 "`
contains spaces, so it fails the pattern — yet `normalizeCorrelationId`
accepts it (as its trimmed form) instead of treating it as missing. -/
theorem c5_counterexample :
    corrIdPattern " abcd1234 " = false
    ∧ normalizeCorrelationId (some " abcd1234 ") = some "abcd1234" := by
  exact ⟨by decide, by decide⟩

/-- C5 (amended): a candidate correlation-id value is accepted exactly
when its whitespace-trimmed form matches the pattern of letters, digits,
`.`, `_`, `:`, `-` with length 8–128, in which case the trimmed form is
used; otherwise it is treated identically to a missing value, and the
middleware then generates a fresh id (normalization is a total function,
so it never raises). -/
theorem c5_amended :
    (∀ v : Option String,
      normalizeCorrelationId v =
        v.bind (fun s => if corrIdPattern (strTrim s) then some (strTrim s) else none))
    ∧ (∀ (req : RequestModel) (genId : String),
        normalizeCorrelationId (headerGet req.headers CORRELATION_ID_HEADER) = none →
        normalizeCorrelationId (cookieGet req.cookies CORRELATION_ID_COOKIE) = none →
        (middlewareProxy req genId).correlationId = genId) := by
  constructor
  · intro v
    match v with
    | none => rfl
    | some s =>
      by_cases hs : s = ""
      · subst hs; decide
      · by_cases ht : strTrim s = ""
        · simp [normalizeCorrelationId, hs, ht, corrIdPattern_empty_false]
        · by_cases hp : corrIdPattern (strTrim s)
          · simp [normalizeCorrelationId, hs, ht, hp]
          · simp [normalizeCorrelationId, hs, ht, hp]
  · intro req genId h1 h2
    unfold middlewareProxy
    rw [h1, h2]
    by_cases hn : isHtmlNavigationRequest req
    · simp [hn]
    · simp [hn]

/-- C5 witness: a padded-but-valid value normalizes to its trim; a
request with a malformed correlation header and no correlation cookie
gets a freshly generated id from the middleware. -/
theorem c5_witness :
    normalizeCorrelationId (some "abc 12") =
      (some "abc 12").bind
        (fun s => if corrIdPattern (strTrim s) then some (strTrim s) else none)
    ∧ (middlewareProxy
        { method := "POST", headers := [("x-correlation-id", "ab c")], cookies := [],
          urlProtocol := "http:", pathname := "/api/hubuum/api/v0/classes", search := "",
          bodyText := "" }
        "generated-cid-0001").correlationId = "generated-cid-0001" := by
  exact ⟨c5_amended.1 (some "abc 12"),
    c5_amended.2 _ "generated-cid-0001" (by decide) (by decide)⟩

/-! ## C6 — distributed-store unavailability raises -/

/-- C6: for every session-store operation (`create`, `get`, `touch`,
`destroy`) against the distributed implementation, a client failure
surfaces as a raised error with the same message; it is never converted
into a "no session" result.  (An unconfigured client also raises.) -/
theorem c6_unavailability_raises {σ : Type} (env : ServerEnv) (ops : ValkeyClientOps σ)
    (st : σ) (sid : String) (payload : SessionPayload) (e : String) :
    (ops.get st (valkeyKey env sid) = Except.error e →
      valkeyGet env ops (some st) sid = Except.error e)
    ∧ (ops.set st (valkeyKey env sid) (stringifyPayload payload) env.SESSION_TTL_SECONDS =
        Except.error e →
      valkeyCreate env ops (some st) sid payload = Except.error e
      ∧ valkeyTouch env ops (some st) sid payload = Except.error e)
    ∧ (ops.del st (valkeyKey env sid) = Except.error e →
      valkeyDestroy env ops (some st) sid = Except.error e)
    ∧ valkeyGet env ops none sid = Except.error "Valkey is not configured." := by
  refine ⟨?_, ?_, ?_, rfl⟩
  · intro h; simp only [valkeyGet]; rw [h]
  · intro h
    exact ⟨by simp only [valkeyCreate]; rw [h], by simp only [valkeyTouch]; rw [h]⟩
  · intro h; simp only [valkeyDestroy]; rw [h]

/-- C6 witness: against a client whose every call rejects, all four
store operations surface the rejection verbatim. -/
theorem c6_witness :
    valkeyGet prodEnvDist downOps (some ()) "sid-0001" = Except.error "valkey unavailable"
    ∧ valkeyCreate prodEnvDist downOps (some ()) "sid-0001"
        { token := "abc123", username := none, createdAt := 0, lastSeen := 0 } =
        Except.error "valkey unavailable"
    ∧ valkeyTouch prodEnvDist downOps (some ()) "sid-0001"
        { token := "abc123", username := none, createdAt := 0, lastSeen := 0 } =
        Except.error "valkey unavailable"
    ∧ valkeyDestroy prodEnvDist downOps (some ()) "sid-0001" =
        Except.error "valkey unavailable" := by
  have h := c6_unavailability_raises prodEnvDist downOps () "sid-0001"
    { token := "abc123", username := none, createdAt := 0, lastSeen := 0 } "valkey unavailable"
  exact ⟨h.1 rfl, (h.2.1 rfl).1, (h.2.1 rfl).2, h.2.2.1 rfl⟩

/-! ## C8 — destroy semantics -/

/-- C8: after `destroy(id)`, `get(id)` returns none, and destroying an
absent (or already destroyed) id is not an error, in both store
implementations.  The in-memory `destroy` is a total `Map.delete`; the
distributed `destroy` against a reachable server is a plain `DEL`, which
succeeds whether or not the key exists, and is idempotent on the
resulting state. -/
theorem c8_destroy_semantics (s : InMemorySessionStore) (sid : String) (now : Nat)
    (env : ServerEnv) (st : List (String × KvEntry)) :
    (memGet (memDestroy s sid) now sid).2 = none
    ∧ memDestroy (memDestroy s sid) sid = memDestroy s sid
    ∧ valkeyDestroy env kvOps (some st) sid = Except.ok (mapDrop st (valkeyKey env sid))
    ∧ valkeyDestroy env kvOps (some (mapDrop st (valkeyKey env sid))) sid =
        Except.ok (mapDrop st (valkeyKey env sid))
    ∧ valkeyGet env kvOps (some (mapDrop st (valkeyKey env sid))) sid = Except.ok none := by
  refine ⟨?_, ?_, rfl, ?_, ?_⟩
  · simp [memGet, memDestroy, mapGet_mapDrop_self]
  · simp [memDestroy, mapDrop_mapDrop_self]
  · simp [valkeyDestroy, kvOps, mapDrop_mapDrop_self]
  · simp [valkeyGet, kvOps, mapGet_mapDrop_self]

/-! ## C10 — unparseable stored values read as absent -/

/-- C10: if the distributed store's `get` finds a stored value that is
not parseable as JSON, it returns "not found" rather than raising, so a
corrupt record is indistinguishable from an absent session. -/
theorem c10_unparseable_is_absent {σ : Type} (env : ServerEnv) (ops : ValkeyClientOps σ)
    (st : σ) (sid raw : String) :
    ops.get st (valkeyKey env sid) = Except.ok (some raw) →
    jsonParse raw = none →
    valkeyGet env ops (some st) sid = Except.ok none := by
  intro h1 h2
  simp only [valkeyGet]
  rw [h1]
  by_cases hr : raw = ""
  · simp [hr]
  · simp [hr, h2]

/-- C10 witness: a stored value of `"\x7b"` (an unterminated JSON object)
reads back as an absent session. -/
theorem c10_witness :
    valkeyGet prodEnvDist kvOps
      (some [(valkeyKey prodEnvDist "sid-0001", { value := "\x7b", ttl := 28800 })])
      "sid-0001" = Except.ok none := by
  exact c10_unparseable_is_absent prodEnvDist kvOps _ "sid-0001" "\x7b" (by rfl) (by rfl)

/-! ## C2 — the Secure cookie flag -/

/-- C2 (counterexample): the claim says the session cookies' `Secure`
flag is true if and only if the effective request scheme is `https`.
In a non-production deployment (`NODE_ENV` defaults to `"development"`),
a login over `https` (via `x-forwarded-proto`) still sets the token
cookie with `Secure = false`: `shouldUseSecureCookies` short-circuits on
`NODE_ENV` before looking at the scheme. -/
theorem c2_counterexample :
    effectiveRequestProto
      { method := "POST", headers := [("x-forwarded-proto", "https")], cookies := [],
        urlProtocol := "http:", pathname := "/api/auth/login", search := "", bodyText := "" }
      = "https"
    ∧ (setSessionCookie devEnvSolo emptyResp "sid-0001"
        (some { method := "POST", headers := [("x-forwarded-proto", "https")], cookies := [],
                urlProtocol := "http:", pathname := "/api/auth/login", search := "",
                bodyText := "" })
        (some "abc123") none).cookies ≠ []
    ∧ ((setSessionCookie devEnvSolo emptyResp "sid-0001"
        (some { method := "POST", headers := [("x-forwarded-proto", "https")], cookies := [],
                urlProtocol := "http:", pathname := "/api/auth/login", search := "",
                bodyText := "" })
        (some "abc123") none).cookies.all (fun c => c.settings.secure = false)) = true := by
  refine ⟨by decide, by decide, by decide⟩

/-- C2 (amended): in a production deployment the session cookies'
`Secure` flag is true if and only if the effective request scheme —
first `x-forwarded-proto` value when present, else the request URL's
protocol — is `https` (and is true when no request object is available);
in a non-production deployment the flag is always false.  Every cookie
`setSessionCookie` or `clearSessionCookie` places on a response carries
exactly this flag. -/
theorem c2_amended (env : ServerEnv) (req : RequestModel) :
    (env.NODE_ENV = "production" →
      (((cookieSettings env (some req)).secure = true) ↔ effectiveRequestProto req = "https"))
    ∧ (env.NODE_ENV ≠ "production" → (cookieSettings env (some req)).secure = false)
    ∧ (env.NODE_ENV = "production" → (cookieSettings env none).secure = true)
    ∧ (∀ (sid : String) (tok user : Option String),
        ((setSessionCookie env emptyResp sid (some req) tok user).cookies.all
          (fun c => c.settings.secure = shouldUseSecureCookies env (some req))) = true
        ∧ ((clearSessionCookie env emptyResp (some req)).cookies.all
          (fun c => c.settings.secure = shouldUseSecureCookies env (some req))) = true) := by
  refine ⟨?_, ?_, ?_, ?_⟩
  · intro h
    simp [cookieSettings, shouldUseSecureCookies, h]
  · intro h
    simp [cookieSettings, shouldUseSecureCookies, h]
  · intro h
    simp [cookieSettings, shouldUseSecureCookies, h]
  · intro sid tok user
    constructor
    · by_cases hd : usesDistributedSessionStore env
      · simp [setSessionCookie, respSetCookie, emptyResp, hd, cookieSettings,
          SESSION_COOKIE_NAME, SESSION_USERNAME_COOKIE_NAME]
      · by_cases htok : truthy tok
        · by_cases hu : truthy user
          · simp [setSessionCookie, respSetCookie, emptyResp, hd, htok, hu, cookieSettings,
              SESSION_TOKEN_COOKIE_NAME, SESSION_USERNAME_COOKIE_NAME]
          · simp [setSessionCookie, respSetCookie, emptyResp, hd, htok, hu, cookieSettings,
              SESSION_TOKEN_COOKIE_NAME, SESSION_USERNAME_COOKIE_NAME]
        · simp [setSessionCookie, respSetCookie, emptyResp, hd, htok, cookieSettings]
    · simp [clearSessionCookie, respSetCookie, emptyResp, cookieSettings,
        SESSION_COOKIE_NAME, SESSION_TOKEN_COOKIE_NAME, SESSION_USERNAME_COOKIE_NAME]

/-- C2 witness: the production iff at an HTTPS request, and the
non-production constant-false at the same request. -/
theorem c2_witness :
    (((cookieSettings prodEnvSolo
        (some { method := "GET", headers := [("x-forwarded-proto", "https")], cookies := [],
                urlProtocol := "http:", pathname := "/app", search := "", bodyText := "" })).secure
        = true)
      ↔ effectiveRequestProto
          { method := "GET", headers := [("x-forwarded-proto", "https")], cookies := [],
            urlProtocol := "http:", pathname := "/app", search := "", bodyText := "" } = "https")
    ∧ (cookieSettings devEnvSolo
        (some { method := "GET", headers := [("x-forwarded-proto", "https")], cookies := [],
                urlProtocol := "http:", pathname := "/app", search := "", bodyText := "" })).secure
        = false := by
  exact ⟨(c2_amended prodEnvSolo _).1 rfl, (c2_amended devEnvSolo _).2.1 (by decide)⟩

/-! ## C7 — touch preserves session identity -/

/-- One successful authenticated access rewrites the entry with the same
identity fields, a fresh `lastSeen` and a TTL-from-now expiry. -/
theorem accessTouch_step (s : InMemorySessionStore) (sid : String) (e : MemEntry) (t : Nat)
    (s1 : InMemorySessionStore) :
    mapGet s.map sid = some e →
    accessTouch s sid t = some s1 →
    s1.ttlSeconds = s.ttlSeconds
    ∧ mapGet s1.map sid =
        some { payload := { e.payload with lastSeen := t },
               expiresAt := t + s.ttlSeconds * 1000 } := by
  intro h1 h2
  unfold accessTouch memGet at h2
  simp only [h1] at h2
  by_cases hexp : e.expiresAt < t
  · rw [if_pos hexp] at h2
    simp at h2
  · rw [if_neg hexp] at h2
    simp only at h2
    injection h2 with h2
    subst h2
    exact ⟨rfl, by simp [memTouch, mapGet_mapSet_self]⟩

/-- C7: for every stored session record and every N ≥ 1 successful
authenticated accesses (each a `get` followed by the `touch` that
`hydrateSession` performs), the `token`, `username` and `createdAt`
fields equal their original values; only `lastSeen` and the expiry
change, the expiry being reset to TTL-from-now at each touch. -/
theorem c7_touch_preserves_identity (s : InMemorySessionStore) (sid : String)
    (e : MemEntry) (ts : List Nat) (tN : Nat) (s2 : InMemorySessionStore) :
    mapGet s.map sid = some e →
    touchRun sid s (ts ++ [tN]) = some s2 →
    s2.ttlSeconds = s.ttlSeconds
    ∧ mapGet s2.map sid =
        some { payload := { token := e.payload.token, username := e.payload.username,
                            createdAt := e.payload.createdAt, lastSeen := tN },
               expiresAt := tN + s.ttlSeconds * 1000 } := by
  induction ts generalizing s e with
  | nil =>
    intro h1 h2
    simp only [List.nil_append, touchRun] at h2
    cases hA : accessTouch s sid tN with
    | none => rw [hA] at h2; simp at h2
    | some s1 =>
      rw [hA] at h2
      simp only [touchRun] at h2
      injection h2 with h2
      subst h2
      have hstep := accessTouch_step s sid e tN s1 h1 hA
      exact ⟨hstep.1, by rw [hstep.2]⟩
  | cons t ts ih =>
    intro h1 h2
    simp only [List.cons_append, touchRun] at h2
    cases hA : accessTouch s sid t with
    | none => rw [hA] at h2; simp at h2
    | some s1 =>
      rw [hA] at h2
      have hstep := accessTouch_step s sid e t s1 h1 hA
      have hrec := ih s1 _ hstep.2 h2
      refine ⟨hrec.1.trans hstep.1, ?_⟩
      rw [hrec.2, hstep.1]

/-- C7 witness: two consecutive accesses on a concrete store preserve
the token and username and leave the expected final entry. -/
theorem c7_witness :
    touchRun "sid-0001" c7Store ([10] ++ [20]) = some c7StoreAfter
    ∧ c7StoreAfter.ttlSeconds = c7Store.ttlSeconds
    ∧ mapGet c7StoreAfter.map "sid-0001" =
        some { payload := { token := "abc123", username := some "alice", createdAt := 5,
                            lastSeen := 20 },
               expiresAt := 20 + c7Store.ttlSeconds * 1000 } := by
  have h := c7_touch_preserves_identity c7Store "sid-0001" _ [10] 20 c7StoreAfter rfl (by rfl)
  exact ⟨by rfl, h.1, by rw [h.2]⟩

/-! ## C3 — proxy gate order -/

/-- C3: no upstream request is issued unless all three gates pass, in
order: an unsupported method is answered 405 (regardless of path or
session), then an unresolvable path 400, then a missing session 401 —
each with a structured error/message body, the correlation header, and
no upstream call; conversely an issued upstream call implies all three
gates passed. -/
theorem c3_gate_order {σ : Type} (env : ServerEnv) (ops : ValkeyClientOps σ) (client : Option σ)
    (now : Nat) (req : RequestModel) (pathParams : List String) (upstream : UpstreamBehavior)
    (genCid : String) :
    (allowedMethod (strUpper req.method) = false →
      proxyToBackend env ops client now req pathParams upstream genCid =
        Except.ok
          { response :=
              jsonResponse 405
                (errorBody "MethodNotAllowed" (strUpper req.method ++ " is not supported."))
                [(CORRELATION_ID_HEADER, proxyCid req genCid)]
            client := client
            upstreamCall := none })
    ∧ (allowedMethod (strUpper req.method) = true →
      toUpstreamPath pathParams (preserveTrailingSlash req) = none →
      proxyToBackend env ops client now req pathParams upstream genCid =
        Except.ok
          { response :=
              jsonResponse 400 (errorBody "BadRequest" "Path must begin with api/.")
                [(CORRELATION_ID_HEADER, proxyCid req genCid)]
            client := client
            upstreamCall := none })
    ∧ (∀ (client1 : Option σ) (p : String),
        allowedMethod (strUpper req.method) = true →
        toUpstreamPath pathParams (preserveTrailingSlash req) = some p →
        getSessionFromRequest env ops client now req = Except.ok (none, client1) →
        proxyToBackend env ops client now req pathParams upstream genCid =
          Except.ok
            { response :=
                jsonResponse 401 (errorBody "Unauthorized" "Sign in required.")
                  [(CORRELATION_ID_HEADER, proxyCid req genCid)]
              client := client1
              upstreamCall := none })
    ∧ (∀ out, proxyToBackend env ops client now req pathParams upstream genCid = Except.ok out →
        out.upstreamCall.isSome = true →
        allowedMethod (strUpper req.method) = true
        ∧ (∃ p, toUpstreamPath pathParams (preserveTrailingSlash req) = some p)
        ∧ (∃ sess client1,
            getSessionFromRequest env ops client now req = Except.ok (some sess, client1)))
    ∧ (∀ (status : Nat) (e m : String) (hs : List (String × String)),
        hasErrorMessageBody (jsonResponse status (errorBody e m) hs).body = true) := by
  refine ⟨?_, ?_, ?_, ?_, ?_⟩
  · intro h
    simp [proxyToBackend, h]
  · intro h1 h2
    simp [proxyToBackend, h1, h2]
  · intro client1 p h1 h2 h3
    simp [proxyToBackend, h1, h2, h3]
  · intro out hout hsome
    by_cases h1 : allowedMethod (strUpper req.method)
    · cases h2 : toUpstreamPath pathParams (preserveTrailingSlash req) with
      | none =>
        simp [proxyToBackend, h1, h2] at hout
        rw [← hout] at hsome
        simp at hsome
      | some p =>
        cases h3 : getSessionFromRequest env ops client now req with
        | error e => simp [proxyToBackend, h1, h2, h3] at hout
        | ok pr =>
          obtain ⟨sessOpt, client1⟩ := pr
          cases sessOpt with
          | none =>
            simp [proxyToBackend, h1, h2, h3] at hout
            rw [← hout] at hsome
            simp at hsome
          | some sess => exact ⟨h1, ⟨p, rfl⟩, sess, client1, rfl⟩
    · simp [proxyToBackend, h1] at hout
      rw [← hout] at hsome
      simp at hsome
  · intro status e m hs
    simp [hasErrorMessageBody, jsonResponse, errorBody, mapGet]

/-- C3 witness: an OPTIONS request is answered 405 with no upstream
call; a supported method with a non-`api/` path is answered 400 with no
upstream call; a supported method and path without a session is
answered 401 with no upstream call. -/
theorem c3_witness :
    (∃ out, proxyToBackend prodEnvSolo kvOps none 0 c3ReqBadMethod ["api", "v0", "classes"]
        (UpstreamBehavior.responds 200 none "") "cid-gen-0001" = Except.ok out
      ∧ out.response.status = 405 ∧ out.upstreamCall = none
      ∧ hasErrorMessageBody out.response.body = true)
    ∧ (∃ out, proxyToBackend prodEnvSolo kvOps none 0 c3ReqNoSession ["classes"]
        (UpstreamBehavior.responds 200 none "") "cid-gen-0001" = Except.ok out
      ∧ out.response.status = 400 ∧ out.upstreamCall = none
      ∧ hasErrorMessageBody out.response.body = true)
    ∧ (∃ out, proxyToBackend prodEnvSolo kvOps none 0 c3ReqNoSession ["api", "v0", "classes"]
        (UpstreamBehavior.responds 200 none "") "cid-gen-0001" = Except.ok out
      ∧ out.response.status = 401 ∧ out.upstreamCall = none
      ∧ hasErrorMessageBody out.response.body = true) := by
  refine ⟨?_, ?_, ?_⟩
  · have h := (c3_gate_order prodEnvSolo kvOps none 0 c3ReqBadMethod ["api", "v0", "classes"]
      (UpstreamBehavior.responds 200 none "") "cid-gen-0001").1 (by decide)
    exact ⟨_, h, rfl, rfl, rfl⟩
  · have h := (c3_gate_order prodEnvSolo kvOps none 0 c3ReqNoSession ["classes"]
      (UpstreamBehavior.responds 200 none "") "cid-gen-0001").2.1 (by decide) (by decide)
    exact ⟨_, h, rfl, rfl, rfl⟩
  · have h := ((c3_gate_order prodEnvSolo kvOps none 0 c3ReqNoSession ["api", "v0", "classes"]
      (UpstreamBehavior.responds 200 none "") "cid-gen-0001").2.2.1) none "/api/v0/classes"
      (by decide) (by decide) (by rfl)
    exact ⟨_, h, rfl, rfl, rfl⟩

/-! ## C9 — the upstream header set -/

theorem strLower_ct : strLower "content-type" = "content-type" := by decide

theorem strLower_ac : strLower "accept" = "accept" := by decide

theorem strLower_au : strLower "authorization" = "authorization" := by decide

theorem strLower_cid : strLower "x-correlation-id" = "x-correlation-id" := by decide

/-- The header set the proxy builds, in closed form: an optional copied
`content-type`, an optional copied `accept`, the injected bearer token,
and the correlation id — nothing else. -/
theorem buildUpstreamHeaders_spec (req : RequestModel) (tok cid : String) :
    buildUpstreamHeaders req tok cid =
      (match truthyHeader req.headers "content-type" with
        | some ct => [("content-type", ct)]
        | none => [])
      ++ (match truthyHeader req.headers "accept" with
        | some ac => [("accept", ac)]
        | none => [])
      ++ [("authorization", "Bearer " ++ tok), ("x-correlation-id", cid)] := by
  unfold buildUpstreamHeaders truthyHeader
  cases hct : headerGet req.headers "content-type" with
  | none =>
    cases hac : headerGet req.headers "accept" with
    | none =>
      simp [headerSet, mapSet, CORRELATION_ID_HEADER, strLower_ct, strLower_ac, strLower_au,
        strLower_cid]
    | some ac =>
      by_cases hace : ac = ""
      · simp [hac, hace, headerSet, mapSet, CORRELATION_ID_HEADER, strLower_ct, strLower_ac,
          strLower_au, strLower_cid]
      · simp [hac, hace, headerSet, mapSet, CORRELATION_ID_HEADER, strLower_ct, strLower_ac,
          strLower_au, strLower_cid]
  | some ct =>
    by_cases hcte : ct = ""
    · cases hac : headerGet req.headers "accept" with
      | none =>
        simp [hct, hcte, headerSet, mapSet, CORRELATION_ID_HEADER, strLower_ct, strLower_ac,
          strLower_au, strLower_cid]
      | some ac =>
        by_cases hace : ac = ""
        · simp [hct, hac, hcte, hace, headerSet, mapSet, CORRELATION_ID_HEADER, strLower_ct,
            strLower_ac, strLower_au, strLower_cid]
        · simp [hct, hac, hcte, hace, headerSet, mapSet, CORRELATION_ID_HEADER, strLower_ct,
            strLower_ac, strLower_au, strLower_cid]
    · cases hac : headerGet req.headers "accept" with
      | none =>
        simp [hct, hcte, headerSet, mapSet, CORRELATION_ID_HEADER, strLower_ct, strLower_ac,
          strLower_au, strLower_cid]
      | some ac =>
        by_cases hace : ac = ""
        · simp [hct, hac, hcte, hace, headerSet, mapSet, CORRELATION_ID_HEADER, strLower_ct,
            strLower_ac, strLower_au, strLower_cid]
        · simp [hct, hac, hcte, hace, headerSet, mapSet, CORRELATION_ID_HEADER, strLower_ct,
            strLower_ac, strLower_au, strLower_cid]

/-- C9 (counterexample): two inbound requests agreeing on method,
cookies, `content-type` and `accept` — differing only in the
`x-correlation-id` header, which lies outside `\x7bcontent-type, accept\x7d` —
produce different upstream header sets, refuting the claim's
"two inbound requests differing only in headers outside
`\x7bcontent-type, accept\x7d` produce identical upstream header sets". -/
theorem c9_counterexample :
    c9ReqA.method = c9ReqB.method
    ∧ c9ReqA.cookies = c9ReqB.cookies
    ∧ headerGet c9ReqA.headers "content-type" = headerGet c9ReqB.headers "content-type"
    ∧ headerGet c9ReqA.headers "accept" = headerGet c9ReqB.headers "accept"
    ∧ upstreamHeadersOf (proxyToBackend prodEnvSolo kvOps none 1000 c9ReqA
        ["api", "v0", "classes"] (UpstreamBehavior.responds 200 none "") "gen-cid-0001")
      = some [("accept", "application/json"), ("authorization", "Bearer abc123"),
              ("x-correlation-id", "aaaaaaaa")]
    ∧ upstreamHeadersOf (proxyToBackend prodEnvSolo kvOps none 1000 c9ReqB
        ["api", "v0", "classes"] (UpstreamBehavior.responds 200 none "") "gen-cid-0001")
      = some [("accept", "application/json"), ("authorization", "Bearer abc123"),
              ("x-correlation-id", "bbbbbbbb")] := by
  refine ⟨rfl, rfl, rfl, rfl, by decide, by decide⟩

/-- C9 (amended): for every proxied request that passes all gates, the
upstream request carries exactly these headers: `content-type` and
`accept` (each copied only when present and nonempty on the inbound
request), `authorization` set to `Bearer` plus the resolved session's
token, and the correlation-id header; any client-supplied
`authorization` value or `cookie` header is never forwarded.  Hence two
inbound requests with the same resolved session token and the same
effective correlation id, differing only in headers outside
`\x7bcontent-type, accept, x-correlation-id\x7d`, produce identical upstream
header sets. -/
theorem c9_exact_headers {σ : Type} (env : ServerEnv) (ops : ValkeyClientOps σ)
    (client : Option σ) (now : Nat) (req : RequestModel) (pathParams : List String)
    (upstream : UpstreamBehavior) (genCid : String) (p : String) (sess : ActiveSession)
    (client1 : Option σ) :
    (allowedMethod (strUpper req.method) = true →
      toUpstreamPath pathParams (preserveTrailingSlash req) = some p →
      getSessionFromRequest env ops client now req = Except.ok (some sess, client1) →
      ∀ out, proxyToBackend env ops client now req pathParams upstream genCid = Except.ok out →
        out.upstreamCall = some
          { method := strUpper req.method, path := p, search := req.search,
            headers := buildUpstreamHeaders req sess.token (proxyCid req genCid),
            body := if strUpper req.method ≠ "GET" && strUpper req.method ≠ "HEAD"
              then some req.bodyText else none })
    ∧ (∀ (tok cid : String),
        buildUpstreamHeaders req tok cid =
          (match truthyHeader req.headers "content-type" with
            | some ct => [("content-type", ct)]
            | none => [])
          ++ (match truthyHeader req.headers "accept" with
            | some ac => [("accept", ac)]
            | none => [])
          ++ [("authorization", "Bearer " ++ tok), ("x-correlation-id", cid)])
    ∧ (∀ (tok cid : String),
        mapGet (buildUpstreamHeaders req tok cid) "cookie" = none
        ∧ mapGet (buildUpstreamHeaders req tok cid) "authorization" =
            some ("Bearer " ++ tok))
    ∧ (∀ (req2 : RequestModel) (tok1 tok2 cid1 cid2 : String),
        headerGet req.headers "content-type" = headerGet req2.headers "content-type" →
        headerGet req.headers "accept" = headerGet req2.headers "accept" →
        tok1 = tok2 → cid1 = cid2 →
        buildUpstreamHeaders req tok1 cid1 = buildUpstreamHeaders req2 tok2 cid2) := by
  refine ⟨?_, fun tok cid => buildUpstreamHeaders_spec req tok cid, ?_, ?_⟩
  · intro h1 h2 h3 out hout
    cases upstream with
    | unreachable msg =>
      simp [proxyToBackend, h1, h2, h3] at hout
      rw [← hout]
      simp
    | responds status ct body =>
      by_cases hst : status = 401
      · cases hd : destroySession env ops client1 sess.sid with
        | error e =>
          simp [proxyToBackend, h1, h2, h3, hst, hd] at hout
        | ok client2 =>
          simp [proxyToBackend, h1, h2, h3, hst, hd] at hout
          rw [← hout]
          simp
      · simp [proxyToBackend, h1, h2, h3, hst] at hout
        rw [← hout]
        simp
  · intro tok cid
    rw [buildUpstreamHeaders_spec]
    cases truthyHeader req.headers "content-type" with
    | none =>
      cases truthyHeader req.headers "accept" with
      | none => constructor <;> simp [mapGet]
      | some ac => constructor <;> simp [mapGet]
    | some ct =>
      cases truthyHeader req.headers "accept" with
      | none => constructor <;> simp [mapGet]
      | some ac => constructor <;> simp [mapGet]
  · intro req2 tok1 tok2 cid1 cid2 hct hac htok hcid
    unfold buildUpstreamHeaders
    rw [hct, hac, htok, hcid]

/-- C9 witness: the upstream call issued for `c9ReqA` is exactly the
four-header set, and adding client headers (`user-agent`, a spoofed
`authorization`, a literal `cookie`) outside the copied set leaves the
upstream header set unchanged. -/
theorem c9_witness :
    (∀ out, proxyToBackend prodEnvSolo kvOps none 1000 c9ReqA ["api", "v0", "classes"]
        (UpstreamBehavior.responds 200 none "") "gen-cid-0001" = Except.ok out →
      out.upstreamCall = some
        { method := strUpper c9ReqA.method, path := "/api/v0/classes", search := c9ReqA.search,
          headers := buildUpstreamHeaders c9ReqA "abc123" (proxyCid c9ReqA "gen-cid-0001"),
          body := if strUpper c9ReqA.method ≠ "GET" && strUpper c9ReqA.method ≠ "HEAD"
            then some c9ReqA.bodyText else none })
    ∧ buildUpstreamHeaders c9ReqA "abc123" "aaaaaaaa" =
        buildUpstreamHeaders c9ReqC "abc123" "aaaaaaaa" := by
  constructor
  · exact (c9_exact_headers prodEnvSolo kvOps none 1000 c9ReqA ["api", "v0", "classes"]
      (UpstreamBehavior.responds 200 none "") "gen-cid-0001" "/api/v0/classes"
      { sid := "cookie-token", token := "abc123", username := none, createdAt := 0,
        lastSeen := 1000 } none).1 (by decide) (by decide) (by rfl)
  · exact (c9_exact_headers prodEnvSolo kvOps none 1000 c9ReqA ["api", "v0", "classes"]
      (UpstreamBehavior.responds 200 none "") "gen-cid-0001" "/api/v0/classes"
      { sid := "cookie-token", token := "abc123", username := none, createdAt := 0,
        lastSeen := 1000 } none).2.2.2 c9ReqC "abc123" "abc123" "aaaaaaaa" "aaaaaaaa"
      (by decide) (by decide) rfl rfl

/-! ## C1 — upstream 401 invalidates the session -/

/-- In distributed mode, a successful session resolution means the sid
cookie matched the returned session's sid and an updated client state
came back. -/
theorem c1_resolution_shape (env : ServerEnv) (st : List (String × KvEntry)) (now : Nat)
    (req : RequestModel) (sess : ActiveSession) (client1 : Option (List (String × KvEntry))) :
    usesDistributedSessionStore env = true →
    getSessionFromRequest env kvOps (some st) now req = Except.ok (some sess, client1) →
    truthyCookie req.cookies SESSION_COOKIE_NAME = some sess.sid
    ∧ ∃ st1, client1 = some st1 := by
  intro hd hres
  unfold getSessionFromRequest at hres
  rw [hd] at hres
  simp only [if_true] at hres
  cases hc : truthyCookie req.cookies SESSION_COOKIE_NAME with
  | none => rw [hc] at hres; simp at hres
  | some sid0 =>
    rw [hc] at hres
    unfold hydrateSession at hres
    rw [hd] at hres
    simp only [Bool.not_true, Bool.false_eq_true, if_false] at hres
    cases hg : mapGet st (valkeyKey env sid0) with
    | none => simp [valkeyGet, kvOps, hg] at hres
    | some entry =>
      by_cases he : entry.value = ""
      · simp [valkeyGet, kvOps, hg, he] at hres
      · cases hj : jsonParse entry.value with
        | none => simp [valkeyGet, kvOps, hg, he, hj] at hres
        | some j =>
          cases hpj : payloadOfJson j with
          | none => simp [valkeyGet, kvOps, hg, he, hj, hpj] at hres
          | some payload =>
            simp [valkeyGet, kvOps, hg, he, hj, hpj, valkeyTouch] at hres
            obtain ⟨hsess, hcl⟩ := hres
            constructor
            · rw [← hsess]
            · exact ⟨_, hcl.symm⟩

/-- C1 (amended): in distributed mode, for every proxied request with an
active session whose upstream response status is exactly 401, the proxy
destroys the local session in the store, sets cookie-clearing headers
(all three session cookies expired) on the outgoing response, and relays
status 401; afterwards, resolving a session from the same original
cookie returns none.  (In standalone mode the 401 is still relayed and
the clearing cookies are still set, but no server-side state exists to
destroy, and the same original token cookie would still resolve — see
the counterexample.) -/
theorem c1_distributed_logout (env : ServerEnv) (st : List (String × KvEntry)) (now : Nat)
    (req : RequestModel) (pathParams : List String) (ct : Option String) (ubody : String)
    (genCid : String) (p : String) (sess : ActiveSession)
    (client1 : Option (List (String × KvEntry))) :
    usesDistributedSessionStore env = true →
    allowedMethod (strUpper req.method) = true →
    toUpstreamPath pathParams (preserveTrailingSlash req) = some p →
    getSessionFromRequest env kvOps (some st) now req = Except.ok (some sess, client1) →
    ∀ out, proxyToBackend env kvOps (some st) now req pathParams
        (UpstreamBehavior.responds 401 ct ubody) genCid = Except.ok out →
      out.response.status = 401
      ∧ out.response.cookies =
          [{ name := SESSION_COOKIE_NAME, value := "",
             settings := { cookieSettings env (some req) with maxAge := 0 } },
           { name := SESSION_TOKEN_COOKIE_NAME, value := "",
             settings := { cookieSettings env (some req) with maxAge := 0 } },
           { name := SESSION_USERNAME_COOKIE_NAME, value := "",
             settings := { cookieSettings env (some req) with maxAge := 0 } }]
      ∧ (∀ now2, getSessionFromRequest env kvOps out.client now2 req =
          Except.ok (none, out.client)) := by
  intro hd hm hp hres out hout
  obtain ⟨hcookie, st1, hcl⟩ := c1_resolution_shape env st now req sess client1 hd hres
  subst hcl
  have hdestroy : destroySession env kvOps (some st1) sess.sid =
      Except.ok (some (mapDrop st1 (valkeyKey env sess.sid))) := by
    simp [destroySession, hd, valkeyDestroy, kvOps]
  simp only [proxyToBackend, hm, hp, hres, hdestroy] at hout
  simp only [if_true] at hout
  injection hout with hout
  subst hout
  refine ⟨?_, ?_, ?_⟩
  · cases ct with
    | none => rfl
    | some c =>
      by_cases hc2 : c = "" <;> simp [hc2, clearSessionCookie, respSetCookie, respSetHeader]
  · cases ct with
    | none =>
      simp [clearSessionCookie, respSetCookie, respSetHeader, SESSION_COOKIE_NAME,
        SESSION_TOKEN_COOKIE_NAME, SESSION_USERNAME_COOKIE_NAME]
    | some c =>
      by_cases hc2 : c = "" <;>
        simp [hc2, clearSessionCookie, respSetCookie, respSetHeader, SESSION_COOKIE_NAME,
          SESSION_TOKEN_COOKIE_NAME, SESSION_USERNAME_COOKIE_NAME]
  · intro now2
    simp [getSessionFromRequest, hd, hcookie, hydrateSession, valkeyGet, kvOps,
      mapGet_mapDrop_self]

/-- C1 (counterexample): in standalone mode an authenticated `DELETE`
whose upstream answers 401 is relayed as 401, but resolving a session
from the same original token cookie afterwards still returns one —
"resolving a session from the same original cookie returns none" fails,
and there is no store record to destroy (`destroySession` is a no-op). -/
theorem c1_counterexample :
    getSessionFromRequest prodEnvSolo kvOps none 1000 c1ReqSolo =
      Except.ok (some { sid := "cookie-token", token := "abc123", username := none,
                        createdAt := 0, lastSeen := 1000 }, none)
    ∧ (proxyToBackend prodEnvSolo kvOps none 1000 c1ReqSolo ["api", "v0", "classes", "5"]
        (UpstreamBehavior.responds 401 none "") "gen-cid-0001").map
        (fun o => o.response.status) = Except.ok 401
    ∧ (match proxyToBackend prodEnvSolo kvOps none 1000 c1ReqSolo ["api", "v0", "classes", "5"]
        (UpstreamBehavior.responds 401 none "") "gen-cid-0001" with
       | Except.ok o => getSessionFromRequest prodEnvSolo kvOps o.client 2000 c1ReqSolo
       | Except.error e => Except.error e)
      = Except.ok (some { sid := "cookie-token", token := "abc123", username := none,
                          createdAt := 0, lastSeen := 2000 }, none) := by
  refine ⟨by rfl, by rfl, by rfl⟩

/-- C1 witness: an authenticated distributed-mode `DELETE /api/v0/classes/5`
against an upstream answering 401 yields status 401, the three expired
cookies, and a subsequent resolution of the same cookie returning none. -/
theorem c1_witness :
    ∃ out, proxyToBackend prodEnvDist kvOps (some c1Kv) 1000 c1ReqDist
        ["api", "v0", "classes", "5"] (UpstreamBehavior.responds 401 none "") "gen-cid-0001" =
        Except.ok out
      ∧ out.response.status = 401
      ∧ out.response.cookies =
          [{ name := SESSION_COOKIE_NAME, value := "",
             settings := { cookieSettings prodEnvDist (some c1ReqDist) with maxAge := 0 } },
           { name := SESSION_TOKEN_COOKIE_NAME, value := "",
             settings := { cookieSettings prodEnvDist (some c1ReqDist) with maxAge := 0 } },
           { name := SESSION_USERNAME_COOKIE_NAME, value := "",
             settings := { cookieSettings prodEnvDist (some c1ReqDist) with maxAge := 0 } }]
      ∧ getSessionFromRequest prodEnvDist kvOps out.client 2000 c1ReqDist =
          Except.ok (none, out.client) := by
  obtain ⟨out, hout⟩ : ∃ out, proxyToBackend prodEnvDist kvOps (some c1Kv) 1000 c1ReqDist
      ["api", "v0", "classes", "5"] (UpstreamBehavior.responds 401 none "") "gen-cid-0001" =
      Except.ok out := by
    cases hres : proxyToBackend prodEnvDist kvOps (some c1Kv) 1000 c1ReqDist
        ["api", "v0", "classes", "5"] (UpstreamBehavior.responds 401 none "") "gen-cid-0001" with
    | ok o => exact ⟨o, rfl⟩
    | error e =>
      have hIsOk : (proxyToBackend prodEnvDist kvOps (some c1Kv) 1000 c1ReqDist
          ["api", "v0", "classes", "5"] (UpstreamBehavior.responds 401 none "")
          "gen-cid-0001").toOption.isSome = true := by decide
      rw [hres] at hIsOk
      simp [Except.toOption] at hIsOk
  have h := c1_distributed_logout prodEnvDist c1Kv 1000 c1ReqDist ["api", "v0", "classes", "5"]
    none "" "gen-cid-0001" "/api/v0/classes/5"
    { sid := "sid-0001", token := "abc123", username := none, createdAt := 5, lastSeen := 1000 }
    (some (mapSet c1Kv (valkeyKey prodEnvDist "sid-0001")
      { value := stringifyPayload
          { token := "abc123", username := none, createdAt := 5, lastSeen := 1000 },
        ttl := 28800 }))
    (by decide) (by decide) (by decide) (by rfl) out hout
  exact ⟨out, hout, h.1, h.2.1, h.2.2 2000⟩

/-! ## C4 — login response shapes -/

/-- A failed credential parse always loses the form flag: the `catch`
block of `parseCredentials` returns `fromForm := false` no matter which
branch threw. -/
theorem loginParse_none_not_form (req : RequestModel) :
    (parseCredentials req).1 = none → (parseCredentials req).2 = false := by
  intro h
  unfold parseCredentials at h ⊢
  by_cases h1 : strContainsSub (strLower ((headerGet req.headers "content-type").getD ""))
      "application/json"
  · simp only [h1, if_true] at h ⊢
    cases hj : jsonParse req.bodyText with
    | none => simp [hj]
    | some j =>
      cases hc : credentialsOfJson j with
      | none => simp [hj, hc]
      | some c => simp [hj, hc] at h
  · by_cases h2 : strContainsSub (strLower ((headerGet req.headers "content-type").getD ""))
        "application/x-www-form-urlencoded"
      || strContainsSub (strLower ((headerGet req.headers "content-type").getD ""))
        "multipart/form-data"
    · simp only [h1, h2, if_true, if_false, Bool.false_eq_true] at h ⊢
      cases hu : formGet req.bodyText "username" with
      | none => simp [hu]
      | some u =>
        cases hp : formGet req.bodyText "password" with
        | none => simp [hu, hp]
        | some p =>
          by_cases hne : u ≠ "" ∧ p ≠ ""
          · exfalso
            simp [hu, hp, hne] at h
          · simp [hu, hp, hne]
    · simp [h1, h2]

/-- A JSON-content-type submission is never flagged as a form. -/
theorem loginParse_json_not_form (req : RequestModel) :
    strContainsSub (strLower ((headerGet req.headers "content-type").getD ""))
      "application/json" = true →
    (parseCredentials req).2 = false := by
  intro h1
  unfold parseCredentials
  simp only [h1, if_true]
  cases hj : jsonParse req.bodyText with
  | none => simp [hj]
  | some j =>
    cases hc : credentialsOfJson j with
    | none => simp [hj, hc]
    | some c => simp [hj, hc]

/-- `setSessionCookie` only touches cookies, never the body. -/
theorem setSessionCookie_body (env : ServerEnv) (r : ResponseModel) (sid : String)
    (req : Option RequestModel) (tok user : Option String) :
    (setSessionCookie env r sid req tok user).body = r.body := by
  unfold setSessionCookie
  by_cases hd : usesDistributedSessionStore env
  · simp [hd, respSetCookie]
  · by_cases htok : truthy tok
    · by_cases hu : truthy user
      · simp [hd, htok, hu, respSetCookie]
      · simp [hd, htok, hu, respSetCookie]
    · simp [hd, htok]

theorem strLower_loc : strLower "Location" = "location" := by decide

theorem strLower_cc : strLower "Cache-Control" = "cache-control" := by decide

/-- C4 (amended): for every POST to `/api/auth/login`: a form-encoded
submission whose fields parse (username and password present and
nonempty) is answered with a 303 redirect — to the app home `/app` when
the upstream accepts and returns a token (with the session created and
cookies set on the response), back to `/login?error=invalid_credentials`
when the upstream rejects; a submission whose fields fail to parse is
answered with a 400 JSON body even when form-encoded, because the parse
failure discards the form flag; a JSON submission is always answered
with a JSON body. -/
theorem c4_login_flows {σ : Type} (env : ServerEnv) (ops : ValkeyClientOps σ)
    (client : Option σ) (now : Nat) (req : RequestModel) (genSid : String) :
    ((parseCredentials req).1 = none → (parseCredentials req).2 = false)
    ∧ (∀ upstream, parseCredentials req = (none, false) →
      loginPOST env ops client now req upstream genSid =
        Except.ok (jsonResponse 400 (errorBody "BadRequest" "Invalid login payload") [],
          client))
    ∧ (∀ (creds : String × String) (status : Nat) (body : String),
      parseCredentials req = (some creds, true) →
      okStatus status = false →
      loginPOST env ops client now req (LoginUpstream.responds status body) genSid =
        Except.ok (seeOther "/login?error=invalid_credentials", client))
    ∧ (∀ (creds : String × String) (status : Nat) (body : String) (tok sid : String)
        (client1 : Option σ),
      parseCredentials req = (some creds, true) →
      okStatus status = true →
      tokenOfPayload (loginPayload body) = some tok →
      createSession env ops client now tok none genSid = Except.ok (sid, client1) →
      loginPOST env ops client now req (LoginUpstream.responds status body) genSid =
        Except.ok (setSessionCookie env (seeOther "/app") sid (some req) (some tok) none,
          client1))
    ∧ (strContainsSub (strLower ((headerGet req.headers "content-type").getD ""))
        "application/json" = true →
      ∀ (upstream : LoginUpstream) (resp : ResponseModel) (client2 : Option σ),
        loginPOST env ops client now req upstream genSid = Except.ok (resp, client2) →
        ∃ j, resp.body = BodyModel.json j)
    ∧ (∀ (sid tok : String), tok ≠ "" →
      (setSessionCookie env (seeOther "/app") sid (some req) (some tok) none).status = 303
      ∧ mapGet (setSessionCookie env (seeOther "/app") sid (some req) (some tok) none).headers
          "location" = some "/app"
      ∧ (setSessionCookie env (seeOther "/app") sid (some req) (some tok) none).cookies
          ≠ []) := by
  refine ⟨loginParse_none_not_form req, ?_, ?_, ?_, ?_, ?_⟩
  · intro upstream h
    simp [loginPOST, h]
  · intro creds status body h hok
    simp [loginPOST, h, hok]
  · intro creds status body tok sid client1 h hok htok hcs
    simp [loginPOST, h, hok, htok, hcs]
  · intro hct upstream resp client2 hres
    have hform := loginParse_json_not_form req hct
    cases hpc : parseCredentials req with
    | mk credsOpt fromForm =>
      rw [hpc] at hform
      simp at hform
      subst hform
      cases credsOpt with
      | none =>
        simp [loginPOST, hpc] at hres
        obtain ⟨h1, h2⟩ := hres
        exact ⟨_, by rw [← h1]; rfl⟩
      | some creds =>
        cases upstream with
        | unreachable msg => simp [loginPOST, hpc] at hres
        | responds status body =>
          by_cases hok : okStatus status
          · cases htok : tokenOfPayload (loginPayload body) with
            | none =>
              simp [loginPOST, hpc, hok, htok] at hres
              obtain ⟨h1, h2⟩ := hres
              exact ⟨_, by rw [← h1]; rfl⟩
            | some tok =>
              cases hcs : createSession env ops client now tok none genSid with
              | error e => simp [loginPOST, hpc, hok, htok, hcs] at hres
              | ok pr =>
                obtain ⟨sid, client1⟩ := pr
                simp [loginPOST, hpc, hok, htok, hcs] at hres
                obtain ⟨h1, h2⟩ := hres
                refine ⟨Json.jobj [("authenticated", Json.jbool true)], ?_⟩
                rw [← h1, setSessionCookie_body]
                rfl
          · simp [loginPOST, hpc, hok] at hres
            obtain ⟨h1, h2⟩ := hres
            exact ⟨_, by rw [← h1]; rfl⟩
  · intro sid tok htok
    have hbodyform : truthy (some tok) = true := by simp [truthy, htok]
    unfold setSessionCookie
    by_cases hd : usesDistributedSessionStore env
    · simp [hd, respSetCookie, seeOther, headerSet, mapSet, strLower_loc, strLower_cc, mapGet,
        truthy, SESSION_COOKIE_NAME, SESSION_USERNAME_COOKIE_NAME]
    · simp [hd, hbodyform, htok, respSetCookie, seeOther, headerSet, mapSet, strLower_loc,
        strLower_cc, mapGet, truthy, SESSION_TOKEN_COOKIE_NAME, SESSION_USERNAME_COOKIE_NAME]

/-- C4 (counterexample): a form-encoded submission missing the password
is answered with a 400 JSON body, not a 303 redirect back to the login
page — the claim's "a form-encoded submission is answered with a 303
redirect" fails for parse failures. -/
theorem c4_counterexample :
    headerGet c4ReqFormBad.headers "content-type" =
      some "application/x-www-form-urlencoded"
    ∧ parseCredentials c4ReqFormBad = (none, false)
    ∧ loginPOST prodEnvSolo kvOps none 1000 c4ReqFormBad (LoginUpstream.responds 200 "")
        "uuid-0001" =
      Except.ok (jsonResponse 400 (errorBody "BadRequest" "Invalid login payload") [], none)
    ∧ (jsonResponse 400 (errorBody "BadRequest" "Invalid login payload") []).status ≠ 303 := by
  refine ⟨rfl, by rfl, by rfl, by decide⟩

/-- C4 witness: a well-formed form login is redirected to
`/login?error=invalid_credentials` when the upstream answers 401, and to
`/app` — with the token cookie set — when the upstream answers 200 with
a token. -/
theorem c4_witness :
    loginPOST prodEnvSolo kvOps none 1000 c4ReqForm
        (LoginUpstream.responds 401 "\x7b\"error\":\"x\"\x7d") "uuid-0001" =
      Except.ok (seeOther "/login?error=invalid_credentials", none)
    ∧ loginPOST prodEnvSolo kvOps none 1000 c4ReqForm
        (LoginUpstream.responds 200 "\x7b\"token\":\"abc123\"\x7d") "uuid-0001" =
      Except.ok (setSessionCookie prodEnvSolo (seeOther "/app") "cookie-uuid-0001"
        (some c4ReqForm) (some "abc123") none, none)
    ∧ (setSessionCookie prodEnvSolo (seeOther "/app") "cookie-uuid-0001" (some c4ReqForm)
        (some "abc123") none).status = 303
    ∧ mapGet (setSessionCookie prodEnvSolo (seeOther "/app") "cookie-uuid-0001"
        (some c4ReqForm) (some "abc123") none).headers "location" = some "/app"
    ∧ (setSessionCookie prodEnvSolo (seeOther "/app") "cookie-uuid-0001" (some c4ReqForm)
        (some "abc123") none).cookies ≠ [] := by
  have h := c4_login_flows prodEnvSolo kvOps none 1000 c4ReqForm "uuid-0001"
  have h6 := h.2.2.2.2.2 "cookie-uuid-0001" "abc123" (by decide)
  exact ⟨h.2.2.1 ("alice", "hunter2") 401 "\x7b\"error\":\"x\"\x7d" (by rfl) (by decide),
    h.2.2.2.1 ("alice", "hunter2") 200 "\x7b\"token\":\"abc123\"\x7d" "abc123" "cookie-uuid-0001"
      none (by rfl) (by decide) (by rfl) (by rfl),
    h6.1, h6.2.1, h6.2.2⟩
